import Mathlib

/-!
A shallow embedding of the OV5647 camera sensor driver
(`sysdrv/source/kernel/drivers/media/i2c/ov5647.c`), together with proofs
about its mode selection, power reference counting, streaming control,
control mapping and chip detection.

Machine arithmetic: `u8`/`u16`/`u32` values are modelled as `Nat` with
explicit `% 2^w` where overflow matters; C `int` arithmetic (the kernel is
compiled with `-fno-strict-overflow`, i.e. two's-complement wraparound) is
modelled on `Int` via `wrap32`.  The i2c transport is modelled as a
register file together with a fault oracle `tfail` indexed by the number
of transport transactions performed so far; each read or write is one
transaction that fails exactly when the oracle says so, failing with
`-5` (`-EIO`; the concrete errno is irrelevant to the driver logic, which
only tests `ret < 0`).  On success `i2c_master_send` returns the number of
bytes sent (3 for a register write) and `i2c_master_recv` returns 1.
-/

/-- One register write: `struct regval_list { u16 addr; u8 data; }`. -/
structure RegVal where
  addr : Nat
  data : Nat
deriving DecidableEq, Repr

/-- Observable side effects of the driver: i2c transactions, clock
enable/disable, reset-GPIO updates, settle sleeps, and (for the probe
model) subdev registration. -/
inductive Ev where
  | wr (addr val : Nat)
  | rd (addr : Nat)
  | clkEnable
  | clkDisable
  | gpioSet (v : Nat)
  | sleep
  | register
deriving DecidableEq, Repr

/-- Driver constant `OV5647_SW_STANDBY 0x0100` -/
def OV5647_SW_STANDBY : Nat := 0x0100

/-- Driver constant `OV5647_SW_RESET 0x0103` -/
def OV5647_SW_RESET : Nat := 0x0103

/-- Driver constant `OV5647_REG_CHIPID_H 0x300A` -/
def OV5647_REG_CHIPID_H : Nat := 0x300A

/-- Driver constant `OV5647_REG_CHIPID_L 0x300B` -/
def OV5647_REG_CHIPID_L : Nat := 0x300B

/-- Driver constant `OV5640_REG_PAD_OUT 0x300D` -/
def OV5640_REG_PAD_OUT : Nat := 0x300D

/-- Driver constant `OV5647_REG_FRAME_OFF_NUMBER 0x4202` -/
def OV5647_REG_FRAME_OFF_NUMBER : Nat := 0x4202

/-- Driver constant `OV5647_REG_MIPI_CTRL00 0x4800` -/
def OV5647_REG_MIPI_CTRL00 : Nat := 0x4800

/-- Driver constant `OV5647_REG_MIPI_CTRL14 0x4814` -/
def OV5647_REG_MIPI_CTRL14 : Nat := 0x4814

/-- Driver constant `OV5647_REG_AEC_AGC 0x3503` -/
def OV5647_REG_AEC_AGC : Nat := 0x3503

/-- Driver constant `OV5647_AEC_ENABLE BIT(0)` -/
def OV5647_AEC_ENABLE : Nat := 0x01

/-- Driver constant `OV5647_AGC_ENABLE BIT(1)` -/
def OV5647_AGC_ENABLE : Nat := 0x02

/-- Driver constant `OV5647_REG_EXPOSURE_HI 0x3500` -/
def OV5647_REG_EXPOSURE_HI : Nat := 0x3500

/-- Driver constant `OV5647_REG_EXPOSURE_MID 0x3501` -/
def OV5647_REG_EXPOSURE_MID : Nat := 0x3501

/-- Driver constant `OV5647_REG_EXPOSURE_LO 0x3502` -/
def OV5647_REG_EXPOSURE_LO : Nat := 0x3502

/-- Driver constant `OV5647_REG_GAIN_HI 0x350a` -/
def OV5647_REG_GAIN_HI : Nat := 0x350a

/-- Driver constant `OV5647_REG_GAIN_LO 0x350b` -/
def OV5647_REG_GAIN_LO : Nat := 0x350b

/-- Driver constant `OV5647_REG_AWB 0x5001` -/
def OV5647_REG_AWB : Nat := 0x5001

/-- Driver constant `MIPI_CTRL00_CLOCK_LANE_GATE BIT(5)` -/
def MIPI_CTRL00_CLOCK_LANE_GATE : Nat := 0x20

/-- Driver constant `MIPI_CTRL00_LINE_SYNC_ENABLE BIT(4)` -/
def MIPI_CTRL00_LINE_SYNC_ENABLE : Nat := 0x10

/-- Driver constant `MIPI_CTRL00_BUS_IDLE BIT(2)` -/
def MIPI_CTRL00_BUS_IDLE : Nat := 0x04

/-- Driver constant `MIPI_CTRL00_CLOCK_LANE_DISABLE BIT(0)` -/
def MIPI_CTRL00_CLOCK_LANE_DISABLE : Nat := 0x01

/-- Kernel media-bus code for 8-bit Bayer BGGR. -/
def MEDIA_BUS_FMT_SBGGR8_1X8 : Nat := 0x3001

/-- Kernel media-bus code for 10-bit Bayer BGGR. -/
def MEDIA_BUS_FMT_SBGGR10_1X10 : Nat := 0x3007

/-- The `V4L2_FIELD_NONE` -/
def V4L2_FIELD_NONE : Nat := 1

/-- The `V4L2_COLORSPACE_SRGB` -/
def V4L2_COLORSPACE_SRGB : Nat := 8

/-- Output-enable disable register group. -/
def sensor_oe_disable_regs : List RegVal := [
  RegVal.mk 0x3000 0x00, RegVal.mk 0x3001 0x00, RegVal.mk 0x3002 0x00
]

/-- Output-enable enable register group. -/
def sensor_oe_enable_regs : List RegVal := [
  RegVal.mk 0x3000 0x0f, RegVal.mk 0x3001 0xff, RegVal.mk 0x3002 0xe4
]

/-- 640x480 mode register sequence (4x subsample, full FOV). -/
def ov5647_640x480 : List RegVal := [
  RegVal.mk 0x0100 0x00, RegVal.mk 0x0103 0x01, RegVal.mk 0x3034 0x08, RegVal.mk 0x3035 0x21,
  RegVal.mk 0x3036 0x46, RegVal.mk 0x303c 0x11, RegVal.mk 0x3106 0xf5, RegVal.mk 0x3821 0x07,
  RegVal.mk 0x3820 0x41, RegVal.mk 0x3827 0xec, RegVal.mk 0x370c 0x0f, RegVal.mk 0x3612 0x59,
  RegVal.mk 0x3618 0x00, RegVal.mk 0x5000 0x06, RegVal.mk 0x5001 0x01, RegVal.mk 0x5002 0x41,
  RegVal.mk 0x5003 0x00, RegVal.mk 0x503d 0x00, RegVal.mk 0x5a00 0x08, RegVal.mk 0x3503 0x00,
  RegVal.mk 0x3500 0x00, RegVal.mk 0x3501 0x40, RegVal.mk 0x3502 0x00, RegVal.mk 0x350a 0x00,
  RegVal.mk 0x350b 0x40, RegVal.mk 0x3000 0x00, RegVal.mk 0x3001 0x00, RegVal.mk 0x3002 0x00,
  RegVal.mk 0x3016 0x08, RegVal.mk 0x3017 0xe0, RegVal.mk 0x3018 0x44, RegVal.mk 0x301c 0xf8,
  RegVal.mk 0x301d 0xf0, RegVal.mk 0x3a18 0x00, RegVal.mk 0x3a19 0xf8, RegVal.mk 0x3c01 0x80,
  RegVal.mk 0x3b07 0x0c, RegVal.mk 0x380c 0x07, RegVal.mk 0x380d 0x68, RegVal.mk 0x380e 0x03,
  RegVal.mk 0x380f 0xd8, RegVal.mk 0x3814 0x71, RegVal.mk 0x3815 0x71, RegVal.mk 0x3708 0x64,
  RegVal.mk 0x3709 0x52, RegVal.mk 0x3808 0x02, RegVal.mk 0x3809 0x80, RegVal.mk 0x380a 0x01,
  RegVal.mk 0x380b 0xe0, RegVal.mk 0x3800 0x00, RegVal.mk 0x3801 0x00, RegVal.mk 0x3802 0x00,
  RegVal.mk 0x3803 0x00, RegVal.mk 0x3804 0x0a, RegVal.mk 0x3805 0x3f, RegVal.mk 0x3806 0x07,
  RegVal.mk 0x3807 0xa1, RegVal.mk 0x3811 0x08, RegVal.mk 0x3813 0x02, RegVal.mk 0x3630 0x2e,
  RegVal.mk 0x3632 0xe2, RegVal.mk 0x3633 0x23, RegVal.mk 0x3634 0x44, RegVal.mk 0x3636 0x06,
  RegVal.mk 0x3620 0x64, RegVal.mk 0x3621 0xe0, RegVal.mk 0x3600 0x37, RegVal.mk 0x3704 0xa0,
  RegVal.mk 0x3703 0x5a, RegVal.mk 0x3715 0x78, RegVal.mk 0x3717 0x01, RegVal.mk 0x3731 0x02,
  RegVal.mk 0x370b 0x60, RegVal.mk 0x3705 0x1a, RegVal.mk 0x3f05 0x02, RegVal.mk 0x3f06 0x10,
  RegVal.mk 0x3f01 0x0a, RegVal.mk 0x3a08 0x01, RegVal.mk 0x3a09 0x27, RegVal.mk 0x3a0a 0x00,
  RegVal.mk 0x3a0b 0xf6, RegVal.mk 0x3a0d 0x04, RegVal.mk 0x3a0e 0x03, RegVal.mk 0x3a0f 0x58,
  RegVal.mk 0x3a10 0x50, RegVal.mk 0x3a1b 0x58, RegVal.mk 0x3a1e 0x50, RegVal.mk 0x3a11 0x60,
  RegVal.mk 0x3a1f 0x28, RegVal.mk 0x4001 0x02, RegVal.mk 0x4004 0x02, RegVal.mk 0x4000 0x09,
  RegVal.mk 0x4837 0x24, RegVal.mk 0x4050 0x6e, RegVal.mk 0x4051 0x8f, RegVal.mk 0x4800 0x34,
  RegVal.mk 0x0100 0x01
]

/-- 2592x1944 full-resolution 8-bit mode register sequence. -/
def ov5647_2592x1944 : List RegVal := [
  RegVal.mk 0x0100 0x00, RegVal.mk 0x0103 0x01, RegVal.mk 0x3034 0x08, RegVal.mk 0x3035 0x21,
  RegVal.mk 0x3036 0x69, RegVal.mk 0x303c 0x11, RegVal.mk 0x3106 0xf5, RegVal.mk 0x3821 0x06,
  RegVal.mk 0x3820 0x00, RegVal.mk 0x3827 0xec, RegVal.mk 0x370c 0x03, RegVal.mk 0x3612 0x5b,
  RegVal.mk 0x3618 0x04, RegVal.mk 0x5000 0x06, RegVal.mk 0x5001 0x01, RegVal.mk 0x5002 0x41,
  RegVal.mk 0x5003 0x00, RegVal.mk 0x503d 0x00, RegVal.mk 0x5a00 0x08, RegVal.mk 0x3503 0x00,
  RegVal.mk 0x3500 0x00, RegVal.mk 0x3501 0x40, RegVal.mk 0x3502 0x00, RegVal.mk 0x350a 0x00,
  RegVal.mk 0x350b 0x40, RegVal.mk 0x3000 0x00, RegVal.mk 0x3001 0x00, RegVal.mk 0x3002 0x00,
  RegVal.mk 0x3016 0x08, RegVal.mk 0x3017 0xe0, RegVal.mk 0x3018 0x44, RegVal.mk 0x301c 0xf8,
  RegVal.mk 0x301d 0xf0, RegVal.mk 0x3a18 0x00, RegVal.mk 0x3a19 0xf8, RegVal.mk 0x3c01 0x80,
  RegVal.mk 0x3b07 0x0c, RegVal.mk 0x380c 0x0b, RegVal.mk 0x380d 0x1c, RegVal.mk 0x380e 0x07,
  RegVal.mk 0x380f 0xb0, RegVal.mk 0x3814 0x11, RegVal.mk 0x3815 0x11, RegVal.mk 0x3708 0x64,
  RegVal.mk 0x3709 0x12, RegVal.mk 0x3808 0x0a, RegVal.mk 0x3809 0x20, RegVal.mk 0x380a 0x07,
  RegVal.mk 0x380b 0x98, RegVal.mk 0x3800 0x00, RegVal.mk 0x3801 0x00, RegVal.mk 0x3802 0x00,
  RegVal.mk 0x3803 0x00, RegVal.mk 0x3804 0x0a, RegVal.mk 0x3805 0x3f, RegVal.mk 0x3806 0x07,
  RegVal.mk 0x3807 0xa3, RegVal.mk 0x3810 0x00, RegVal.mk 0x3811 0x10, RegVal.mk 0x3812 0x00,
  RegVal.mk 0x3813 0x06, RegVal.mk 0x3630 0x2e, RegVal.mk 0x3632 0xe2, RegVal.mk 0x3633 0x23,
  RegVal.mk 0x3634 0x44, RegVal.mk 0x3636 0x06, RegVal.mk 0x3620 0x64, RegVal.mk 0x3621 0xe0,
  RegVal.mk 0x3600 0x37, RegVal.mk 0x3704 0xa0, RegVal.mk 0x3703 0x5a, RegVal.mk 0x3715 0x78,
  RegVal.mk 0x3717 0x01, RegVal.mk 0x3731 0x02, RegVal.mk 0x370b 0x60, RegVal.mk 0x3705 0x1a,
  RegVal.mk 0x3f05 0x02, RegVal.mk 0x3f06 0x10, RegVal.mk 0x3f01 0x0a, RegVal.mk 0x3a08 0x01,
  RegVal.mk 0x3a09 0x28, RegVal.mk 0x3a0a 0x00, RegVal.mk 0x3a0b 0xf6, RegVal.mk 0x3a0d 0x08,
  RegVal.mk 0x3a0e 0x06, RegVal.mk 0x3a0f 0x58, RegVal.mk 0x3a10 0x50, RegVal.mk 0x3a1b 0x58,
  RegVal.mk 0x3a1e 0x50, RegVal.mk 0x3a11 0x60, RegVal.mk 0x3a1f 0x28, RegVal.mk 0x4001 0x02,
  RegVal.mk 0x4004 0x04, RegVal.mk 0x4000 0x09, RegVal.mk 0x4837 0x19, RegVal.mk 0x4800 0x34,
  RegVal.mk 0x0100 0x01
]

/-- 1280x960 mode register sequence (2x subsample, full FOV). -/
def ov5647_1280x960 : List RegVal := [
  RegVal.mk 0x0100 0x00, RegVal.mk 0x0103 0x01, RegVal.mk 0x3034 0x08, RegVal.mk 0x3035 0x21,
  RegVal.mk 0x3036 0x46, RegVal.mk 0x303c 0x11, RegVal.mk 0x3106 0xf5, RegVal.mk 0x3821 0x06,
  RegVal.mk 0x3820 0x00, RegVal.mk 0x3827 0xec, RegVal.mk 0x370c 0x0f, RegVal.mk 0x3612 0x59,
  RegVal.mk 0x3618 0x00, RegVal.mk 0x5000 0x06, RegVal.mk 0x5001 0x01, RegVal.mk 0x5002 0x41,
  RegVal.mk 0x5003 0x00, RegVal.mk 0x503d 0x00, RegVal.mk 0x5a00 0x08, RegVal.mk 0x3503 0x00,
  RegVal.mk 0x3500 0x00, RegVal.mk 0x3501 0x40, RegVal.mk 0x3502 0x00, RegVal.mk 0x350a 0x00,
  RegVal.mk 0x350b 0x40, RegVal.mk 0x3000 0x00, RegVal.mk 0x3001 0x00, RegVal.mk 0x3002 0x00,
  RegVal.mk 0x3016 0x08, RegVal.mk 0x3017 0xe0, RegVal.mk 0x3018 0x44, RegVal.mk 0x301c 0xf8,
  RegVal.mk 0x301d 0xf0, RegVal.mk 0x3a18 0x00, RegVal.mk 0x3a19 0xf8, RegVal.mk 0x3c01 0x80,
  RegVal.mk 0x3b07 0x0c, RegVal.mk 0x380c 0x07, RegVal.mk 0x380d 0x68, RegVal.mk 0x380e 0x03,
  RegVal.mk 0x380f 0xd8, RegVal.mk 0x3814 0x31, RegVal.mk 0x3815 0x31, RegVal.mk 0x3708 0x64,
  RegVal.mk 0x3709 0x52, RegVal.mk 0x3808 0x05, RegVal.mk 0x3809 0x00, RegVal.mk 0x380a 0x03,
  RegVal.mk 0x380b 0xc0, RegVal.mk 0x3800 0x00, RegVal.mk 0x3801 0x08, RegVal.mk 0x3802 0x00,
  RegVal.mk 0x3803 0x02, RegVal.mk 0x3804 0x0a, RegVal.mk 0x3805 0x37, RegVal.mk 0x3806 0x07,
  RegVal.mk 0x3807 0x9f, RegVal.mk 0x3811 0x04, RegVal.mk 0x3813 0x02, RegVal.mk 0x3630 0x2e,
  RegVal.mk 0x3632 0xe2, RegVal.mk 0x3633 0x23, RegVal.mk 0x3634 0x44, RegVal.mk 0x3636 0x06,
  RegVal.mk 0x3620 0x64, RegVal.mk 0x3621 0xe0, RegVal.mk 0x3600 0x37, RegVal.mk 0x3704 0xa0,
  RegVal.mk 0x3703 0x5a, RegVal.mk 0x3715 0x78, RegVal.mk 0x3717 0x01, RegVal.mk 0x3731 0x02,
  RegVal.mk 0x370b 0x60, RegVal.mk 0x3705 0x1a, RegVal.mk 0x3f05 0x02, RegVal.mk 0x3f06 0x10,
  RegVal.mk 0x3f01 0x0a, RegVal.mk 0x3a08 0x01, RegVal.mk 0x3a09 0x28, RegVal.mk 0x3a0a 0x00,
  RegVal.mk 0x3a0b 0xf6, RegVal.mk 0x3a0d 0x08, RegVal.mk 0x3a0e 0x06, RegVal.mk 0x3a0f 0x58,
  RegVal.mk 0x3a10 0x50, RegVal.mk 0x3a1b 0x58, RegVal.mk 0x3a1e 0x50, RegVal.mk 0x3a11 0x60,
  RegVal.mk 0x3a1f 0x28, RegVal.mk 0x4001 0x02, RegVal.mk 0x4004 0x04, RegVal.mk 0x4000 0x09,
  RegVal.mk 0x4837 0x16, RegVal.mk 0x4800 0x34, RegVal.mk 0x0100 0x01
]

/-- 1920x1080 center-crop 10-bit mode register sequence. -/
def ov5647_1920x1080 : List RegVal := [
  RegVal.mk 0x0100 0x00, RegVal.mk 0x0103 0x01, RegVal.mk 0x3034 0x1a, RegVal.mk 0x3035 0x21,
  RegVal.mk 0x3036 0x62, RegVal.mk 0x303c 0x11, RegVal.mk 0x3106 0xf5, RegVal.mk 0x3821 0x06,
  RegVal.mk 0x3820 0x00, RegVal.mk 0x3827 0xec, RegVal.mk 0x370c 0x03, RegVal.mk 0x3612 0x5b,
  RegVal.mk 0x3618 0x04, RegVal.mk 0x5000 0x06, RegVal.mk 0x5002 0x41, RegVal.mk 0x5003 0x08,
  RegVal.mk 0x5a00 0x08, RegVal.mk 0x3000 0x00, RegVal.mk 0x3001 0x00, RegVal.mk 0x3002 0x00,
  RegVal.mk 0x3016 0x08, RegVal.mk 0x3017 0xe0, RegVal.mk 0x3018 0x44, RegVal.mk 0x301c 0xf8,
  RegVal.mk 0x301d 0xf0, RegVal.mk 0x3a18 0x00, RegVal.mk 0x3a19 0xf8, RegVal.mk 0x3c01 0x80,
  RegVal.mk 0x3b07 0x0c, RegVal.mk 0x380c 0x09, RegVal.mk 0x380d 0x70, RegVal.mk 0x380e 0x04,
  RegVal.mk 0x380f 0x50, RegVal.mk 0x3814 0x11, RegVal.mk 0x3815 0x11, RegVal.mk 0x3708 0x64,
  RegVal.mk 0x3709 0x12, RegVal.mk 0x3808 0x07, RegVal.mk 0x3809 0x80, RegVal.mk 0x380a 0x04,
  RegVal.mk 0x380b 0x38, RegVal.mk 0x3800 0x01, RegVal.mk 0x3801 0x5c, RegVal.mk 0x3802 0x01,
  RegVal.mk 0x3803 0xb2, RegVal.mk 0x3804 0x08, RegVal.mk 0x3805 0xe3, RegVal.mk 0x3806 0x05,
  RegVal.mk 0x3807 0xf1, RegVal.mk 0x3811 0x04, RegVal.mk 0x3813 0x02, RegVal.mk 0x3630 0x2e,
  RegVal.mk 0x3632 0xe2, RegVal.mk 0x3633 0x23, RegVal.mk 0x3634 0x44, RegVal.mk 0x3636 0x06,
  RegVal.mk 0x3620 0x64, RegVal.mk 0x3621 0xe0, RegVal.mk 0x3600 0x37, RegVal.mk 0x3704 0xa0,
  RegVal.mk 0x3703 0x5a, RegVal.mk 0x3715 0x78, RegVal.mk 0x3717 0x01, RegVal.mk 0x3731 0x02,
  RegVal.mk 0x370b 0x60, RegVal.mk 0x3705 0x1a, RegVal.mk 0x3f05 0x02, RegVal.mk 0x3f06 0x10,
  RegVal.mk 0x3f01 0x0a, RegVal.mk 0x3a08 0x01, RegVal.mk 0x3a09 0x4b, RegVal.mk 0x3a0a 0x01,
  RegVal.mk 0x3a0b 0x13, RegVal.mk 0x3a0d 0x04, RegVal.mk 0x3a0e 0x03, RegVal.mk 0x3a0f 0x58,
  RegVal.mk 0x3a10 0x50, RegVal.mk 0x3a1b 0x58, RegVal.mk 0x3a1e 0x50, RegVal.mk 0x3a11 0x60,
  RegVal.mk 0x3a1f 0x28, RegVal.mk 0x4001 0x02, RegVal.mk 0x4004 0x04, RegVal.mk 0x4000 0x09,
  RegVal.mk 0x4837 0x19, RegVal.mk 0x4800 0x34, RegVal.mk 0x3503 0x00, RegVal.mk 0x0100 0x01
]

/-- 1296x972 2x2-binning mode register sequence. -/
def ov5647_1296x972 : List RegVal := [
  RegVal.mk 0x0100 0x00, RegVal.mk 0x0103 0x01, RegVal.mk 0x3034 0x08, RegVal.mk 0x3035 0x21,
  RegVal.mk 0x3036 0x46, RegVal.mk 0x303c 0x11, RegVal.mk 0x3106 0xf5, RegVal.mk 0x3821 0x07,
  RegVal.mk 0x3820 0x41, RegVal.mk 0x3827 0xec, RegVal.mk 0x370c 0x0f, RegVal.mk 0x3612 0x59,
  RegVal.mk 0x3618 0x00, RegVal.mk 0x5000 0x06, RegVal.mk 0x5001 0x01, RegVal.mk 0x5002 0x41,
  RegVal.mk 0x5003 0x00, RegVal.mk 0x503d 0x00, RegVal.mk 0x5a00 0x08, RegVal.mk 0x3503 0x00,
  RegVal.mk 0x3500 0x00, RegVal.mk 0x3501 0x40, RegVal.mk 0x3502 0x00, RegVal.mk 0x350a 0x00,
  RegVal.mk 0x350b 0x40, RegVal.mk 0x3000 0x00, RegVal.mk 0x3001 0x00, RegVal.mk 0x3002 0x00,
  RegVal.mk 0x3016 0x08, RegVal.mk 0x3017 0xe0, RegVal.mk 0x3018 0x44, RegVal.mk 0x301c 0xf8,
  RegVal.mk 0x301d 0xf0, RegVal.mk 0x3a18 0x00, RegVal.mk 0x3a19 0xf8, RegVal.mk 0x3c01 0x80,
  RegVal.mk 0x3b07 0x0c, RegVal.mk 0x380c 0x07, RegVal.mk 0x380d 0x68, RegVal.mk 0x380e 0x05,
  RegVal.mk 0x380f 0x9b, RegVal.mk 0x3814 0x31, RegVal.mk 0x3815 0x31, RegVal.mk 0x3708 0x64,
  RegVal.mk 0x3709 0x52, RegVal.mk 0x3808 0x05, RegVal.mk 0x3809 0x10, RegVal.mk 0x380a 0x03,
  RegVal.mk 0x380b 0xcc, RegVal.mk 0x3800 0x00, RegVal.mk 0x3801 0x00, RegVal.mk 0x3802 0x00,
  RegVal.mk 0x3803 0x00, RegVal.mk 0x3804 0x0a, RegVal.mk 0x3805 0x3f, RegVal.mk 0x3806 0x07,
  RegVal.mk 0x3807 0xa3, RegVal.mk 0x3810 0x00, RegVal.mk 0x3811 0x08, RegVal.mk 0x3812 0x00,
  RegVal.mk 0x3813 0x02, RegVal.mk 0x3630 0x2e, RegVal.mk 0x3632 0xe2, RegVal.mk 0x3633 0x23,
  RegVal.mk 0x3634 0x44, RegVal.mk 0x3636 0x06, RegVal.mk 0x3620 0x64, RegVal.mk 0x3621 0xe0,
  RegVal.mk 0x3600 0x37, RegVal.mk 0x3704 0xa0, RegVal.mk 0x3703 0x5a, RegVal.mk 0x3715 0x78,
  RegVal.mk 0x3717 0x01, RegVal.mk 0x3731 0x02, RegVal.mk 0x370b 0x60, RegVal.mk 0x3705 0x1a,
  RegVal.mk 0x3f05 0x02, RegVal.mk 0x3f06 0x10, RegVal.mk 0x3f01 0x0a, RegVal.mk 0x3a08 0x01,
  RegVal.mk 0x3a09 0x28, RegVal.mk 0x3a0a 0x00, RegVal.mk 0x3a0b 0xf6, RegVal.mk 0x3a0d 0x08,
  RegVal.mk 0x3a0e 0x06, RegVal.mk 0x3a0f 0x58, RegVal.mk 0x3a10 0x50, RegVal.mk 0x3a1b 0x58,
  RegVal.mk 0x3a1e 0x50, RegVal.mk 0x3a11 0x60, RegVal.mk 0x3a1f 0x28, RegVal.mk 0x4001 0x02,
  RegVal.mk 0x4004 0x04, RegVal.mk 0x4000 0x09, RegVal.mk 0x4837 0x16, RegVal.mk 0x4800 0x34,
  RegVal.mk 0x0100 0x01
]

/-- 640x480 2x2 bin+subsample (mainline-style) register sequence. -/
def ov5647_640x480_binned : List RegVal := [
  RegVal.mk 0x0100 0x00, RegVal.mk 0x0103 0x01, RegVal.mk 0x3034 0x08, RegVal.mk 0x3035 0x21,
  RegVal.mk 0x3036 0x46, RegVal.mk 0x303c 0x11, RegVal.mk 0x3106 0xf5, RegVal.mk 0x3821 0x07,
  RegVal.mk 0x3820 0x41, RegVal.mk 0x3827 0xec, RegVal.mk 0x370c 0x0f, RegVal.mk 0x3612 0x59,
  RegVal.mk 0x3618 0x00, RegVal.mk 0x5000 0x06, RegVal.mk 0x5001 0x01, RegVal.mk 0x5002 0x41,
  RegVal.mk 0x5003 0x00, RegVal.mk 0x503d 0x00, RegVal.mk 0x5a00 0x08, RegVal.mk 0x3503 0x00,
  RegVal.mk 0x3500 0x00, RegVal.mk 0x3501 0x40, RegVal.mk 0x3502 0x00, RegVal.mk 0x350a 0x00,
  RegVal.mk 0x350b 0x40, RegVal.mk 0x3000 0x00, RegVal.mk 0x3001 0x00, RegVal.mk 0x3002 0x00,
  RegVal.mk 0x3016 0x08, RegVal.mk 0x3017 0xe0, RegVal.mk 0x3018 0x44, RegVal.mk 0x301c 0xf8,
  RegVal.mk 0x301d 0xf0, RegVal.mk 0x3a18 0x00, RegVal.mk 0x3a19 0xf8, RegVal.mk 0x3c01 0x80,
  RegVal.mk 0x3b07 0x0c, RegVal.mk 0x380c 0x07, RegVal.mk 0x380d 0x3c, RegVal.mk 0x380e 0x01,
  RegVal.mk 0x380f 0xf8, RegVal.mk 0x3814 0x35, RegVal.mk 0x3815 0x35, RegVal.mk 0x3708 0x64,
  RegVal.mk 0x3709 0x52, RegVal.mk 0x3808 0x02, RegVal.mk 0x3809 0x80, RegVal.mk 0x380a 0x01,
  RegVal.mk 0x380b 0xe0, RegVal.mk 0x3800 0x00, RegVal.mk 0x3801 0x10, RegVal.mk 0x3802 0x00,
  RegVal.mk 0x3803 0x00, RegVal.mk 0x3804 0x0a, RegVal.mk 0x3805 0x2f, RegVal.mk 0x3806 0x07,
  RegVal.mk 0x3807 0x9f, RegVal.mk 0x3810 0x00, RegVal.mk 0x3811 0x10, RegVal.mk 0x3812 0x00,
  RegVal.mk 0x3813 0x04, RegVal.mk 0x3630 0x2e, RegVal.mk 0x3632 0xe2, RegVal.mk 0x3633 0x23,
  RegVal.mk 0x3634 0x44, RegVal.mk 0x3636 0x06, RegVal.mk 0x3620 0x64, RegVal.mk 0x3621 0xe0,
  RegVal.mk 0x3600 0x37, RegVal.mk 0x3704 0xa0, RegVal.mk 0x3703 0x5a, RegVal.mk 0x3715 0x78,
  RegVal.mk 0x3717 0x01, RegVal.mk 0x3731 0x02, RegVal.mk 0x370b 0x60, RegVal.mk 0x3705 0x1a,
  RegVal.mk 0x3f05 0x02, RegVal.mk 0x3f06 0x10, RegVal.mk 0x3f01 0x0a, RegVal.mk 0x3a08 0x01,
  RegVal.mk 0x3a09 0x28, RegVal.mk 0x3a0a 0x00, RegVal.mk 0x3a0b 0xf6, RegVal.mk 0x3a0d 0x08,
  RegVal.mk 0x3a0e 0x06, RegVal.mk 0x3a0f 0x58, RegVal.mk 0x3a10 0x50, RegVal.mk 0x3a1b 0x58,
  RegVal.mk 0x3a1e 0x50, RegVal.mk 0x3a11 0x60, RegVal.mk 0x3a1f 0x28, RegVal.mk 0x4001 0x02,
  RegVal.mk 0x4004 0x02, RegVal.mk 0x4000 0x09, RegVal.mk 0x4837 0x24, RegVal.mk 0x4800 0x34,
  RegVal.mk 0x0100 0x01
]

/-- A supported mode: `struct ov5647_mode`. -/
structure ov5647_mode where
  width : Nat
  height : Nat
  mbus_code : Nat
  pixel_rate : Nat
  reg_list : List RegVal
deriving Repr

/-- Out-of-range fallback for mode-table indexing (the C code indexes the
array unchecked; `current_mode` is within range in every reachable state). -/
def ov5647_mode_fallback : ov5647_mode := ov5647_mode.mk 0 0 0 0 []

/-- The whole driver-visible state: the sensor register file, the fields of
`struct ov5647` the embedded operations touch, the clock/reset-line state,
the fault oracles, and the trace of side effects performed so far. -/
@[ext]
structure DevState where
  regs : Nat → Nat
  power_count : Int
  current_mode : Nat
  width : Nat
  height : Nat
  clkOn : Bool
  resetAsserted : Bool
  hasResetGpio : Bool
  clkFail : Bool
  tfail : Nat → Bool
  tick : Nat
  warned : Bool
  trace : List Ev

/-- The `ov5647_write`: one i2c send of `{reg >> 8, reg & 0xff, val}`; returns 3
on success (bytes sent), `-5` on transport failure.  The register file keeps
the written byte only when the transaction succeeds. -/
def ov5647_write (reg val : Nat) (st : DevState) : Int × DevState :=
  if st.tfail st.tick then
    (-5, { st with tick := st.tick + 1, trace := st.trace ++ [Ev.wr reg val] })
  else
    (3, { st with
          regs := fun a => if a = reg then val % 256 else st.regs a,
          tick := st.tick + 1,
          trace := st.trace ++ [Ev.wr reg val] })

/-- The `ov5647_read`: returns `(ret, byte)`; 1 on success, `-5` on failure
(the C helper performs an i2c send plus receive; we model the round trip as
one transaction of the fault oracle). -/
def ov5647_read (reg : Nat) (st : DevState) : (Int × Nat) × DevState :=
  if st.tfail st.tick then
    ((-5, 0), { st with tick := st.tick + 1, trace := st.trace ++ [Ev.rd reg] })
  else
    ((1, st.regs reg % 256),
     { st with tick := st.tick + 1, trace := st.trace ++ [Ev.rd reg] })

/-- The `ov5647_write_array`: writes each entry in order, aborting with the
error of the first failing write. -/
def ov5647_write_array (regs : List RegVal) (st : DevState) : Int × DevState :=
  match regs with
  | [] => (0, st)
  | r :: rest =>
    match ov5647_write r.addr r.data st with
    | (ret, st') => if ret < 0 then (ret, st') else ov5647_write_array rest st'

/-- The `clk_prepare_enable` on the sensor xclk. -/
def clk_prepare_enable (st : DevState) : Int × DevState :=
  if st.clkFail then (-5, st)
  else (0, { st with clkOn := true, trace := st.trace ++ [Ev.clkEnable] })

/-- The `clk_disable_unprepare` on the sensor xclk. -/
def clk_disable_unprepare (st : DevState) : DevState :=
  { st with clkOn := false, trace := st.trace ++ [Ev.clkDisable] }

/-- The `gpiod_set_value_cansleep` on the reset GPIO (1 = reset asserted). -/
def gpiod_set_value_cansleep (v : Nat) (st : DevState) : DevState :=
  { st with resetAsserted := v == 1, trace := st.trace ++ [Ev.gpioSet v] }

/-- The `usleep_range(5000, 10000)` settle delay after deasserting reset. -/
def usleep_range (st : DevState) : DevState :=
  { st with trace := st.trace ++ [Ev.sleep] }

/-- The mode table `ov5647_modes[]`, in source order (index 0 is the
power-on default). -/
def ov5647_modes : List ov5647_mode := [
  ov5647_mode.mk 640 480 MEDIA_BUS_FMT_SBGGR8_1X8 55000000 ov5647_640x480,
  ov5647_mode.mk 640 480 MEDIA_BUS_FMT_SBGGR8_1X8 55000000 ov5647_640x480_binned,
  ov5647_mode.mk 1296 972 MEDIA_BUS_FMT_SBGGR8_1X8 81666700 ov5647_1296x972,
  ov5647_mode.mk 1280 960 MEDIA_BUS_FMT_SBGGR8_1X8 55969920 ov5647_1280x960,
  ov5647_mode.mk 1920 1080 MEDIA_BUS_FMT_SBGGR10_1X10 81666700 ov5647_1920x1080,
  ov5647_mode.mk 2592 1944 MEDIA_BUS_FMT_SBGGR8_1X8 87500000 ov5647_2592x1944
]

/-- Driver constant `OV5647_NUM_MODES` (`ARRAY_SIZE(ov5647_modes)`). -/
def OV5647_NUM_MODES : Nat := 6

/-- The `ov5647_set_virtual_channel`: read-modify-write of the 2-bit channel
field (bits 7:6) of MIPI_CTRL14. -/
def ov5647_set_virtual_channel (channel : Nat) (st : DevState) : Int × DevState :=
  match ov5647_read OV5647_REG_MIPI_CTRL14 st with
  | ((ret, channel_id), st1) =>
    if ret < 0 then (ret, st1)
    else ov5647_write OV5647_REG_MIPI_CTRL14 ((channel_id &&& 0x3f) ||| (channel <<< 6)) st1

/-- The `ov5647_stream_on`: debug read of MIPI_CTRL00 (result ignored), then
line-sync + bus-idle, frame-off counter to 0, pad-output enable. -/
def ov5647_stream_on (st : DevState) : Int × DevState :=
  match ov5647_read OV5647_REG_MIPI_CTRL00 st with
  | (_, st0) =>
    match ov5647_write OV5647_REG_MIPI_CTRL00
        (MIPI_CTRL00_LINE_SYNC_ENABLE ||| MIPI_CTRL00_BUS_IDLE) st0 with
    | (r1, st1) =>
      if r1 < 0 then (r1, st1)
      else
        match ov5647_write OV5647_REG_FRAME_OFF_NUMBER 0x00 st1 with
        | (r2, st2) =>
          if r2 < 0 then (r2, st2)
          else ov5647_write OV5640_REG_PAD_OUT 0x00 st2

/-- The `ov5647_stream_off`: clock-lane gate + bus idle + clock-lane disable,
then frame-off counter to its maximum 0x0f, then pad-output disable. -/
def ov5647_stream_off (st : DevState) : Int × DevState :=
  match ov5647_write OV5647_REG_MIPI_CTRL00
      (MIPI_CTRL00_CLOCK_LANE_GATE ||| MIPI_CTRL00_BUS_IDLE |||
       MIPI_CTRL00_CLOCK_LANE_DISABLE) st with
  | (r1, st1) =>
    if r1 < 0 then (r1, st1)
    else
      match ov5647_write OV5647_REG_FRAME_OFF_NUMBER 0x0f st1 with
      | (r2, st2) =>
        if r2 < 0 then (r2, st2)
        else ov5647_write OV5640_REG_PAD_OUT 0x01 st2

/-- The `set_sw_standby`: read-modify-write of the SW_STANDBY bit
(clear bit 0 to enter standby, set it to leave). -/
def set_sw_standby (standby : Bool) (st : DevState) : Int × DevState :=
  match ov5647_read OV5647_SW_STANDBY st with
  | ((ret, rdval), st1) =>
    if ret < 0 then (ret, st1)
    else if standby then ov5647_write OV5647_SW_STANDBY (rdval &&& 0xfe) st1
    else ov5647_write OV5647_SW_STANDBY (rdval ||| 0x01) st1

/-- The `__sensor_init`: plays the current mode's register list, assigns
virtual channel 0, forces the device out of SW standby if needed, and ends
with a stream-off so the clock lane parks in LP-11. -/
def __sensor_init (st : DevState) : Int × DevState :=
  let mode := ov5647_modes.getD st.current_mode ov5647_mode_fallback
  match ov5647_read OV5647_SW_STANDBY st with
  | ((r1, _), st1) =>
    if r1 < 0 then (r1, st1)
    else
      match ov5647_write_array mode.reg_list st1 with
      | (r2, st2) =>
        if r2 < 0 then (r2, st2)
        else
          match ov5647_read OV5647_REG_MIPI_CTRL00 st2 with
          | (_, st3) =>
            match ov5647_set_virtual_channel 0 st3 with
            | (r3, st4) =>
              if r3 < 0 then (r3, st4)
              else
                match ov5647_read OV5647_SW_STANDBY st4 with
                | ((r4, resetval), st5) =>
                  if r4 < 0 then (r4, st5)
                  else if resetval &&& 0x01 = 0 then
                    match ov5647_write OV5647_SW_STANDBY 0x01 st5 with
                    | (r5, st6) =>
                      if r5 < 0 then (r5, st6) else ov5647_stream_off st6
                  else ov5647_stream_off st5

/-- Shared tail of `ov5647_sensor_power`: the counter update
`power_count += on ? 1 : -1` followed by `WARN_ON(power_count < 0)`
(modelled by the `warned` flag) and returning `ret`. -/
def power_count_update (turn_on : Bool) (ret : Int) (st : DevState) : Int × DevState :=
  let pc := st.power_count + (if turn_on then 1 else -1)
  (ret, { st with power_count := pc, warned := st.warned || decide (pc < 0) })

/-- The `ov5647_sensor_power`: the reference-counted power state machine.
A failing step of the 0-to-1 power-on jumps to `out`, skipping the counter
update. -/
def ov5647_sensor_power (turn_on : Bool) (st : DevState) : Int × DevState :=
  if turn_on = true ∧ st.power_count = 0 then
    match clk_prepare_enable st with
    | (cret, st1) =>
      if cret < 0 then (cret, st1)
      else
        let st2 := if st1.hasResetGpio then usleep_range (gpiod_set_value_cansleep 0 st1) else st1
        match ov5647_write_array sensor_oe_enable_regs st2 with
        | (wret, st3) =>
          if wret < 0 then (wret, clk_disable_unprepare st3)
          else
            match __sensor_init st3 with
            | (iret, st4) =>
              if iret < 0 then (iret, clk_disable_unprepare st4)
              else power_count_update turn_on iret st4
  else if turn_on = false ∧ st.power_count = 1 then
    match ov5647_write_array sensor_oe_disable_regs st with
    | (_, st1) =>
      match set_sw_standby true st1 with
      | (sret, st2) =>
        let st3 := clk_disable_unprepare st2
        let st4 := if st3.hasResetGpio then gpiod_set_value_cansleep 1 st3 else st3
        power_count_update turn_on sret st4
  else
    power_count_update turn_on 0 st

/-- The five control identifiers handled by `ov5647_s_ctrl`, with the new
control value (`ctrl->val`, nonnegative for all five controls). -/
inductive Ov5647Ctrl where
  | auto_wb (val : Nat)
  | autogain (val : Nat)
  | exposure_auto (val : Nat)
  | exposure (val : Nat)
  | analogue_gain (val : Nat)
deriving DecidableEq, Repr

/-- The `ov5647_s_ctrl`: a no-op returning 0 while powered off; otherwise
maps the control to direct or read-modify-write register traffic
(`V4L2_EXPOSURE_AUTO = 0`; AEC/AGC bits use inverted polarity: 0 = auto). -/
def ov5647_s_ctrl (ctrl : Ov5647Ctrl) (st : DevState) : Int × DevState :=
  if st.power_count = 0 then (0, st)
  else
    let out :=
      match ctrl with
      | .auto_wb v => ov5647_write OV5647_REG_AWB (if v ≠ 0 then 1 else 0) st
      | .autogain v =>
        match ov5647_read OV5647_REG_AEC_AGC st with
        | ((r, reg), st1) =>
          if r < 0 then (r, st1)
          else if v ≠ 0 then ov5647_write OV5647_REG_AEC_AGC (reg &&& 0xfd) st1
          else ov5647_write OV5647_REG_AEC_AGC (reg ||| OV5647_AGC_ENABLE) st1
      | .exposure_auto v =>
        match ov5647_read OV5647_REG_AEC_AGC st with
        | ((r, reg), st1) =>
          if r < 0 then (r, st1)
          else if v = 0 then ov5647_write OV5647_REG_AEC_AGC (reg &&& 0xfe) st1
          else ov5647_write OV5647_REG_AEC_AGC (reg ||| OV5647_AEC_ENABLE) st1
      | .exposure v =>
        match ov5647_write OV5647_REG_EXPOSURE_HI ((v >>> 12) &&& 0x0f) st with
        | (r1, st1) =>
          if r1 < 0 then (r1, st1)
          else
            match ov5647_write OV5647_REG_EXPOSURE_MID ((v >>> 4) &&& 0xff) st1 with
            | (r2, st2) =>
              if r2 < 0 then (r2, st2)
              else ov5647_write OV5647_REG_EXPOSURE_LO ((v <<< 4) &&& 0xf0) st2
      | .analogue_gain v =>
        match ov5647_write OV5647_REG_GAIN_HI ((v >>> 8) &&& 0x03) st with
        | (r1, st1) =>
          if r1 < 0 then (r1, st1)
          else ov5647_write OV5647_REG_GAIN_LO (v &&& 0xff) st1
    (if out.1 < 0 then out.1 else 0, out.2)

/-- The `ov5647_detect`: software reset, check the two chip-ID bytes
(0x56, 0x47), fail with `-ENODEV = -19` on mismatch, then clear the reset
flag. -/
def ov5647_detect (st : DevState) : Int × DevState :=
  match ov5647_write OV5647_SW_RESET 0x01 st with
  | (r1, st1) =>
    if r1 < 0 then (r1, st1)
    else
      match ov5647_read OV5647_REG_CHIPID_H st1 with
      | ((r2, idh), st2) =>
        if r2 < 0 then (r2, st2)
        else if idh ≠ 0x56 then (-19, st2)
        else
          match ov5647_read OV5647_REG_CHIPID_L st2 with
          | ((r3, idl), st3) =>
            if r3 < 0 then (r3, st3)
            else if idl ≠ 0x47 then (-19, st3)
            else ov5647_write OV5647_SW_RESET 0x00 st3

/-- The `__ov5647_power_on`: clock first, then deassert reset and settle. -/
def __ov5647_power_on (st : DevState) : Int × DevState :=
  match clk_prepare_enable st with
  | (r, st1) =>
    if r < 0 then (r, st1)
    else (0, if st1.hasResetGpio then usleep_range (gpiod_set_value_cansleep 0 st1) else st1)

/-- The `__ov5647_power_off`: assert reset, then disable the clock. -/
def __ov5647_power_off (st : DevState) : DevState :=
  clk_disable_unprepare (if st.hasResetGpio then gpiod_set_value_cansleep 1 st else st)

/-- The attach tail of `ov5647_probe`: power on for detection, run
`ov5647_detect`, and only on success register the subdev (the `Ev.register`
event); on detection failure jump to the `power_off` label without
registering. Framework setup before this point is out of scope. -/
def ov5647_probe (st : DevState) : Int × DevState :=
  match __ov5647_power_on st with
  | (r0, st0) =>
    if r0 < 0 then (r0, st0)
    else
      match ov5647_detect st0 with
      | (r1, st1) =>
        if r1 < 0 then (r1, __ov5647_power_off st1)
        else (0, { st1 with trace := st1.trace ++ [Ev.register] })

/-- Reduce a Nat holding a C `u32` value to a signed 32-bit `Int`
(the `(int)` cast of the cost computation). -/
def toI32 (n : Nat) : Int :=
  if n % 4294967296 < 2147483648 then (n % 4294967296 : Int)
  else (n % 4294967296 : Int) - 4294967296

/-- Wrap an `Int` into the two's-complement 32-bit range (the kernel is
built with `-fno-strict-overflow`, so `int` arithmetic wraps). -/
def wrap32 (a : Int) : Int := (a + 2147483648) % 4294967296 - 2147483648

/-- C `abs()` on a 32-bit `int` (note `abs(INT_MIN) = INT_MIN`). -/
def cAbs32 (a : Int) : Int := wrap32 (if a < 0 then -a else a)

/-- Reinterpret a signed 32-bit value as `u32`. -/
def u32ofI32 (a : Int) : Nat := (a % 4294967296).toNat

/-- The per-entry `diff` computed by the loop body of `ov5647_set_fmt`:
`abs((int)w_i - (int)w) + abs((int)h_i - (int)h)` as `u32`, plus 10000
(as `u32`) when the entry's media-bus code differs from the request. -/
def ov5647_mode_diff (w h code : Nat) (m : ov5647_mode) : Nat :=
  let dw := cAbs32 (wrap32 (toI32 m.width - toI32 w))
  let dh := cAbs32 (wrap32 (toI32 m.height - toI32 h))
  let diff := u32ofI32 (wrap32 (dw + dh))
  if m.mbus_code ≠ code then (diff + 10000) % 4294967296 else diff

/-- The best-mode scan of `ov5647_set_fmt`: indices in order, running
best `(best_mode, best_diff)` starting at `(0, ~0U)`, updating on strict
improvement only (first minimum wins). -/
def ov5647_best_loop (f : Nat → Nat) : List Nat → Nat × Nat → Nat × Nat
  | [], s => s
  | i :: rest, (bm, bd) =>
    if f i < bd then ov5647_best_loop f rest (i, f i)
    else ov5647_best_loop f rest (bm, bd)

/-- The mode index chosen by `ov5647_set_fmt` for a requested
width/height/code triple. -/
def ov5647_find_best (w h code : Nat) : Nat :=
  (ov5647_best_loop
    (fun i => ov5647_mode_diff w h code (ov5647_modes.getD i ov5647_mode_fallback))
    (List.range OV5647_NUM_MODES) (0, 4294967295)).1

/-- The `v4l2_mbus_framefmt` fields touched by `ov5647_set_fmt`. -/
structure MbusFmt where
  width : Nat
  height : Nat
  code : Nat
  field : Nat
  colorspace : Nat
deriving DecidableEq, Repr

/-- The mbus format written back for mode-table index `i`. -/
def mode_fmt (i : Nat) : MbusFmt :=
  let m := ov5647_modes.getD i ov5647_mode_fallback
  MbusFmt.mk m.width m.height m.mbus_code V4L2_FIELD_NONE V4L2_COLORSPACE_SRGB

/-- The `ov5647_set_fmt`: picks the best mode for the request and writes the
chosen triple back to the caller.  `which_try = true` models
`V4L2_SUBDEV_FORMAT_TRY`: the negotiated format goes to the caller-owned
pad-config try slot (returned here as the middle component) and the
persistent driver state is untouched; `which_try = false` (ACTIVE) also
updates `current_mode`, `width`, `height`. -/
def ov5647_set_fmt (which_try : Bool) (f : MbusFmt) (st : DevState) :
    Int × MbusFmt × DevState :=
  let best_mode := ov5647_find_best f.width f.height f.code
  let f' := mode_fmt best_mode
  if which_try then (0, f', st)
  else (0, f', { st with current_mode := best_mode, width := f'.width, height := f'.height })

/-- Run a sequence of `s_power` calls (`true` = acquire, `false` = release). -/
def power_seq (l : List Bool) (st : DevState) : DevState :=
  l.foldl (fun s b => (ov5647_sensor_power b s).2) st

/-- No transport transaction ever fails. -/
def NoFault (st : DevState) : Prop := ∀ k, st.tfail k = false

/-- Mathematical distance on naturals, `|a - b|`. -/
def ndist (a b : Nat) : Nat := if a ≤ b then b - a else a - b

/-- The specified cost of entry `i` for a request: exact dimension distance
plus `LARGE_PENALTY = 10000` when the pixel format differs. -/
def spec_cost (w h code i : Nat) : Nat :=
  let m := ov5647_modes.getD i ov5647_mode_fallback
  ndist m.width w + ndist m.height h + (if m.mbus_code ≠ code then 10000 else 0)

/-- Dimension bound under which the selection arithmetic is exact:
`2^31 - 5001`. -/
def BOUND : Nat := 2147478647

/-- A concrete initial state used by witnesses: zeroed register file, no
faults, reference count 0, clock off, reset asserted. -/
def initSt : DevState :=
  DevState.mk (fun _ => 0) 0 0 640 480 false true true false (fun _ => false) 0 false []

/-- The fields every transport-level operation leaves untouched: the power
counter, the clock state and the fault oracle. -/
def Pres (st st2 : DevState) : Prop :=
  st2.power_count = st.power_count ∧ st2.clkOn = st.clkOn ∧ st2.tfail = st.tfail

/-- High nibble written for EXPOSURE, in div/mod form. -/
theorem exposure_hi_eq (v : Nat) : (v >>> 12) &&& 0x0f = v / 4096 % 16 := by
  rw [Nat.shiftRight_eq_div_pow]
  rw [show (0x0f : Nat) = 2 ^ 4 - 1 by norm_num, Nat.and_pow_two_sub_one_eq_mod]

/-- Middle byte written for EXPOSURE, in div/mod form. -/
theorem exposure_mid_eq (v : Nat) : (v >>> 4) &&& 0xff = v / 16 % 256 := by
  rw [Nat.shiftRight_eq_div_pow]
  rw [show (0xff : Nat) = 2 ^ 8 - 1 by norm_num, Nat.and_pow_two_sub_one_eq_mod]

/-- Low byte written for EXPOSURE, in div/mod form. -/
theorem exposure_lo_eq (v : Nat) : (v <<< 4) &&& 0xf0 = v % 16 * 16 := by
  have h1 : v <<< 4 = v * 16 := by rw [Nat.shiftLeft_eq]
  have h2 : (0xf0 : Nat) = 0xff &&& 0xf0 := by decide
  rw [h1, h2, ← Nat.and_assoc]
  rw [show (0xff : Nat) = 2 ^ 8 - 1 from rfl, Nat.and_pow_two_sub_one_eq_mod]
  rw [show (2 : Nat) ^ 8 = 256 from rfl]
  rw [show v * 16 % 256 = v % 16 * 16 by omega]
  have h4 : v % 16 < 16 := Nat.mod_lt _ (by norm_num)
  generalize v % 16 = r at h4 ⊢
  interval_cases r <;> decide

/-- High byte written for GAIN, in div/mod form. -/
theorem gain_hi_eq (v : Nat) : (v >>> 8) &&& 0x03 = v / 256 % 4 := by
  rw [Nat.shiftRight_eq_div_pow]
  rw [show (0x03 : Nat) = 2 ^ 2 - 1 by norm_num, Nat.and_pow_two_sub_one_eq_mod]

/-- Low byte written for GAIN, in div/mod form. -/
theorem gain_lo_eq (v : Nat) : v &&& 0xff = v % 256 := by
  rw [show (0xff : Nat) = 2 ^ 8 - 1 by norm_num, Nat.and_pow_two_sub_one_eq_mod]

/-- C7: applying any of the five controls (auto white balance, auto gain,
auto exposure, exposure, gain), at any value, while the power state is OFF
(`power_count = 0`) returns success (0) and leaves the state - in
particular the transport-transaction trace - completely unchanged: zero
transport calls are made. -/
theorem ov5647_s_ctrl_powered_off (c : Ov5647Ctrl) (st : DevState)
    (h : st.power_count = 0) : ov5647_s_ctrl c st = (0, st) := by
  simp [ov5647_s_ctrl, h]

/-- Witness for C7 at a concrete control and state. -/
theorem ov5647_s_ctrl_powered_off_witness :
    initSt.power_count = 0 ∧ ov5647_s_ctrl (.exposure 0x1234) initSt = (0, initSt) :=
  ⟨rfl, ov5647_s_ctrl_powered_off (.exposure 0x1234) initSt rfl⟩

/-- C4 (amended): calling release when `reference_count` is already 0
issues no register writes and performs no power-off side effects (the
returned state differs from the input only in the counter and the warning
flag, so the trace is untouched), but the counter is decremented to -1 -
with a warning - rather than saturating at zero; the invariant
`reference_count >= 0` is not preserved. -/
theorem ov5647_release_at_zero (st : DevState) (h : st.power_count = 0) :
    ov5647_sensor_power false st = (0, { st with power_count := -1, warned := true }) := by
  simp [ov5647_sensor_power, h, power_count_update]

/-- Witness for the amended C4 at the concrete initial state. -/
theorem ov5647_release_at_zero_witness :
    initSt.power_count = 0 ∧
    ov5647_sensor_power false initSt = (0, { initSt with power_count := -1, warned := true }) :=
  ⟨rfl, ov5647_release_at_zero initSt rfl⟩

/-- C4 counterexample: releasing at `reference_count = 0` drives the counter
to -1; it does not saturate at zero. -/
theorem ov5647_release_at_zero_counterexample :
    (ov5647_sensor_power false initSt).2.power_count = -1 ∧
    ¬ (0 : Int) ≤ (ov5647_sensor_power false initSt).2.power_count := by
  decide

/-- C3: while powered, EXPOSURE(v), v in [1, 65535], writes exactly three
registers high-first with hi = (v >> 12) & 0x0f, mid = (v >> 4) & 0xff,
lo = (v << 4) & 0xf0, and GAIN(v), v in [16, 1023], writes two registers
high-first with hi = (v >> 8) & 0x03, lo = v & 0xff; the written bytes
reconstruct the original value, and in particular EXPOSURE(0x1234) yields
hi=0x01, mid=0x23, lo=0x40 and GAIN(0x2AB) yields hi=0x02, lo=0xAB. -/
theorem ov5647_ctrl_encoding (st : DevState) (v g : Nat)
    (hpow : ¬ st.power_count = 0) (hnf : NoFault st)
    (hv1 : 1 ≤ v) (hv2 : v ≤ 65535) (hg1 : 16 ≤ g) (hg2 : g ≤ 1023) :
    ((ov5647_s_ctrl (.exposure v) st).1 = 0 ∧
      (ov5647_s_ctrl (.exposure v) st).2.trace = st.trace ++
        [Ev.wr OV5647_REG_EXPOSURE_HI ((v >>> 12) &&& 0x0f),
         Ev.wr OV5647_REG_EXPOSURE_MID ((v >>> 4) &&& 0xff),
         Ev.wr OV5647_REG_EXPOSURE_LO ((v <<< 4) &&& 0xf0)]) ∧
    ((v >>> 12) &&& 0x0f) * 4096 + ((v >>> 4) &&& 0xff) * 16 +
      ((v <<< 4) &&& 0xf0) / 16 = v ∧
    ((ov5647_s_ctrl (.analogue_gain g) st).1 = 0 ∧
      (ov5647_s_ctrl (.analogue_gain g) st).2.trace = st.trace ++
        [Ev.wr OV5647_REG_GAIN_HI ((g >>> 8) &&& 0x03),
         Ev.wr OV5647_REG_GAIN_LO (g &&& 0xff)]) ∧
    ((g >>> 8) &&& 0x03) * 256 + (g &&& 0xff) = g ∧
    (0x1234 >>> 12) &&& 0x0f = 0x01 ∧ (0x1234 >>> 4) &&& 0xff = 0x23 ∧
    (0x1234 <<< 4) &&& 0xf0 = 0x40 ∧ (0x2AB >>> 8) &&& 0x03 = 0x02 ∧
    (0x2AB : Nat) &&& 0xff = 0xAB := by
  have hf : ∀ k, st.tfail k = false := hnf
  refine ⟨?_, ?_, ?_, ?_, by decide, by decide, by decide, by decide, by decide⟩
  · simp [ov5647_s_ctrl, hpow, ov5647_write, hf]
  · rw [exposure_hi_eq, exposure_mid_eq, exposure_lo_eq]; omega
  · simp [ov5647_s_ctrl, hpow, ov5647_write, hf]
  · rw [gain_hi_eq, gain_lo_eq]; omega

/-- Witness for C3 at v = 0x1234, g = 0x2AB on a powered-on state. -/
theorem ov5647_ctrl_encoding_witness :
    (¬ ({ initSt with power_count := 1 } : DevState).power_count = 0) ∧
    ((ov5647_s_ctrl (.exposure 0x1234) { initSt with power_count := 1 }).1 = 0 ∧
      (ov5647_s_ctrl (.exposure 0x1234) { initSt with power_count := 1 }).2.trace =
        ({ initSt with power_count := 1 } : DevState).trace ++
        [Ev.wr OV5647_REG_EXPOSURE_HI ((0x1234 >>> 12) &&& 0x0f),
         Ev.wr OV5647_REG_EXPOSURE_MID ((0x1234 >>> 4) &&& 0xff),
         Ev.wr OV5647_REG_EXPOSURE_LO ((0x1234 <<< 4) &&& 0xf0)]) ∧
    ((0x1234 >>> 12) &&& 0x0f) * 4096 + ((0x1234 >>> 4) &&& 0xff) * 16 +
      ((0x1234 <<< 4) &&& 0xf0) / 16 = 0x1234 ∧
    ((ov5647_s_ctrl (.analogue_gain 0x2AB) { initSt with power_count := 1 }).1 = 0 ∧
      (ov5647_s_ctrl (.analogue_gain 0x2AB) { initSt with power_count := 1 }).2.trace =
        ({ initSt with power_count := 1 } : DevState).trace ++
        [Ev.wr OV5647_REG_GAIN_HI ((0x2AB >>> 8) &&& 0x03),
         Ev.wr OV5647_REG_GAIN_LO (0x2AB &&& 0xff)]) ∧
    ((0x2AB >>> 8) &&& 0x03) * 256 + (0x2AB &&& 0xff) = 0x2AB ∧
    (0x1234 >>> 12) &&& 0x0f = 0x01 ∧ (0x1234 >>> 4) &&& 0xff = 0x23 ∧
    (0x1234 <<< 4) &&& 0xf0 = 0x40 ∧ (0x2AB >>> 8) &&& 0x03 = 0x02 ∧
    (0x2AB : Nat) &&& 0xff = 0xAB :=
  ⟨by decide,
   ov5647_ctrl_encoding { initSt with power_count := 1 } 0x1234 0x2AB
     (by decide) (fun k => rfl) (by decide) (by decide) (by decide) (by decide)⟩

/-- C8: stream-off writes, in order, the MIPI control register value gating
the pixel clock lane and marking the bus idle, then the frame-off countdown
register at its maximum count 0x0f, then the output-pad-disable bit; hence
stream-on immediately followed by stream-off leaves the pad-disable bit set
(PAD_OUT = 0x01) and the frame-off counter at its maximum. -/
theorem ov5647_stream_off_order (st : DevState) (hnf : NoFault st) :
    ((ov5647_stream_off st).2.trace = st.trace ++
      [Ev.wr OV5647_REG_MIPI_CTRL00
         (MIPI_CTRL00_CLOCK_LANE_GATE ||| MIPI_CTRL00_BUS_IDLE |||
          MIPI_CTRL00_CLOCK_LANE_DISABLE),
       Ev.wr OV5647_REG_FRAME_OFF_NUMBER 0x0f,
       Ev.wr OV5640_REG_PAD_OUT 0x01]) ∧
    (ov5647_stream_off (ov5647_stream_on st).2).2.regs OV5640_REG_PAD_OUT = 0x01 ∧
    (ov5647_stream_off (ov5647_stream_on st).2).2.regs OV5647_REG_FRAME_OFF_NUMBER = 0x0f := by
  have hf : ∀ k, st.tfail k = false := hnf
  refine ⟨?_, ?_, ?_⟩ <;>
    simp [ov5647_stream_off, ov5647_stream_on, ov5647_write, ov5647_read, hf,
      OV5647_REG_MIPI_CTRL00, OV5647_REG_FRAME_OFF_NUMBER, OV5640_REG_PAD_OUT,
      MIPI_CTRL00_CLOCK_LANE_GATE, MIPI_CTRL00_BUS_IDLE,
      MIPI_CTRL00_CLOCK_LANE_DISABLE, MIPI_CTRL00_LINE_SYNC_ENABLE]

/-- Witness for C8 at the concrete initial state. -/
theorem ov5647_stream_off_order_witness :
    NoFault initSt ∧
    (((ov5647_stream_off initSt).2.trace = initSt.trace ++
      [Ev.wr OV5647_REG_MIPI_CTRL00
         (MIPI_CTRL00_CLOCK_LANE_GATE ||| MIPI_CTRL00_BUS_IDLE |||
          MIPI_CTRL00_CLOCK_LANE_DISABLE),
       Ev.wr OV5647_REG_FRAME_OFF_NUMBER 0x0f,
       Ev.wr OV5640_REG_PAD_OUT 0x01]) ∧
    (ov5647_stream_off (ov5647_stream_on initSt).2).2.regs OV5640_REG_PAD_OUT = 0x01 ∧
    (ov5647_stream_off (ov5647_stream_on initSt).2).2.regs OV5647_REG_FRAME_OFF_NUMBER = 0x0f) :=
  ⟨fun _ => rfl, ov5647_stream_off_order initSt (fun _ => rfl)⟩

/-- The scanned index list is 0..5. -/
theorem ov5647_range6 : List.range OV5647_NUM_MODES = [0, 1, 2, 3, 4, 5] := rfl

/-- The scan's resulting index is the initial one or one of the scanned
indices. -/
theorem ov5647_best_loop_fst_mem (f : Nat → Nat) (l : List Nat) :
    ∀ s : Nat × Nat, (ov5647_best_loop f l s).1 = s.1 ∨ (ov5647_best_loop f l s).1 ∈ l := by
  induction l with
  | nil => intro s; exact Or.inl rfl
  | cons i rest ih =>
    intro s
    match s with
    | (bm, bd) =>
      simp only [ov5647_best_loop]
      split_ifs
      · rcases ih (i, f i) with hh | hh
        · exact Or.inr (by simp [hh])
        · exact Or.inr (List.mem_cons_of_mem _ hh)
      · rcases ih (bm, bd) with hh | hh
        · exact Or.inl hh
        · exact Or.inr (List.mem_cons_of_mem _ hh)

/-- The chosen mode index is always a valid index into the 6-entry table. -/
theorem ov5647_find_best_lt (w h code : Nat) : ov5647_find_best w h code < 6 := by
  unfold ov5647_find_best
  rcases ov5647_best_loop_fst_mem
      (fun i => ov5647_mode_diff w h code (ov5647_modes.getD i ov5647_mode_fallback))
      (List.range OV5647_NUM_MODES) (0, 4294967295) with hh | hh
  · rw [hh]; norm_num
  · exact List.mem_range.mp hh

set_option maxHeartbeats 3200000 in
/-- The scan returns an index of minimal `f`-value among 0..5, and on ties
the least such index (the loop only updates on strict improvement). -/
theorem ov5647_best6 (f : Nat → Nat) (h0 : f 0 < 4294967295) (j : Nat) (hj : j < 6) :
    f ((ov5647_best_loop f (List.range OV5647_NUM_MODES) (0, 4294967295)).1) ≤ f j ∧
    (f j = f ((ov5647_best_loop f (List.range OV5647_NUM_MODES) (0, 4294967295)).1) →
      (ov5647_best_loop f (List.range OV5647_NUM_MODES) (0, 4294967295)).1 ≤ j) := by
  simp only [ov5647_range6, ov5647_best_loop]
  interval_cases j <;> split_ifs <;> dsimp only <;> omega

/-- Casting a small `u32` value to `int` is the identity. -/
theorem toI32_small {n : Nat} (h : n < 2147483648) : toI32 n = n := by
  unfold toI32
  rw [if_pos (show n % 4294967296 < 2147483648 by omega)]
  omega

/-- Wrapping is the identity on the 32-bit range. -/
theorem wrap32_small {a : Int} (h1 : -2147483648 ≤ a) (h2 : a < 2147483648) :
    wrap32 a = a := by
  unfold wrap32; omega

/-- Reinterpreting a wrapped nonnegative value below `2^32` as `u32`
recovers it. -/
theorem u32_wrap_eq {x : Int} (h1 : 0 ≤ x) (h2 : x < 4294967296) :
    u32ofI32 (wrap32 x) = x.toNat := by
  unfold u32ofI32 wrap32; omega

/-- For table dimensions (at most 2592) and requests at most `BOUND`, the
C absolute-difference computation is the exact distance. -/
theorem dim_diff_eq (a w : Nat) (ha : a ≤ 2592) (hw : w ≤ BOUND) :
    cAbs32 (wrap32 (toI32 a - toI32 w)) = (ndist a w : Int) := by
  have hB : BOUND = 2147478647 := rfl
  rw [toI32_small (by omega), toI32_small (by omega)]
  rw [wrap32_small (by omega) (by omega)]
  unfold cAbs32 ndist
  split_ifs <;> rw [wrap32_small (by omega) (by omega)] <;> omega

/-- The distance from a table dimension to a bounded request is bounded. -/
theorem ndist_le_bound (a w : Nat) (ha : a ≤ 2592) (hw : w ≤ BOUND) :
    ndist a w ≤ BOUND := by
  have hB : BOUND = 2147478647 := rfl
  unfold ndist; split_ifs <;> omega

/-- For bounded requests the loop's computed `diff` of a table entry equals
the specified cost (no 32-bit wraparound occurs). -/
theorem mode_diff_eq_cost_entry (wi hi codei pr : Nat) (rl : List RegVal)
    (w h code : Nat) (hwi : wi ≤ 2592) (hhi : hi ≤ 2592)
    (hw : w ≤ BOUND) (hh : h ≤ BOUND) :
    ov5647_mode_diff w h code (ov5647_mode.mk wi hi codei pr rl) =
      ndist wi w + ndist hi h + (if codei ≠ code then 10000 else 0) := by
  have hB : BOUND = 2147478647 := rfl
  have h1 := ndist_le_bound wi w hwi hw
  have h2 := ndist_le_bound hi h hhi hh
  unfold ov5647_mode_diff
  simp only [dim_diff_eq wi w hwi hw, dim_diff_eq hi h hhi hh]
  rw [show ((ndist wi w : Int) + (ndist hi h : Int)) = ((ndist wi w + ndist hi h : Nat) : Int)
    by push_cast; ring]
  rw [u32_wrap_eq (by positivity) (by exact_mod_cast by omega)]
  rw [Int.toNat_natCast]
  split_ifs <;> omega

/-- The per-entry `diff` equals the specified cost for any mode record with
table-sized dimensions. -/
theorem mode_diff_eq_cost_m (m : ov5647_mode) (w h code : Nat)
    (hwi : m.width ≤ 2592) (hhi : m.height ≤ 2592) (hw : w ≤ BOUND) (hh : h ≤ BOUND) :
    ov5647_mode_diff w h code m =
      ndist m.width w + ndist m.height h + (if m.mbus_code ≠ code then 10000 else 0) := by
  cases m with
  | mk wi hi codei pr rl => exact mode_diff_eq_cost_entry wi hi codei pr rl w h code hwi hhi hw hh

/-- Every table entry has width and height at most 2592. -/
theorem ov5647_mode_dims_le (i : Nat) (hi : i < 6) :
    (ov5647_modes.getD i ov5647_mode_fallback).width ≤ 2592 ∧
    (ov5647_modes.getD i ov5647_mode_fallback).height ≤ 2592 := by
  interval_cases i <;> exact ⟨by decide, by decide⟩

/-- For bounded requests, the loop's computed `diff` of entry `i` is the
specified cost of entry `i`. -/
theorem ov5647_mode_diff_eq_spec_cost (w h code i : Nat) (hw : w ≤ BOUND) (hh : h ≤ BOUND)
    (hi : i < 6) :
    ov5647_mode_diff w h code (ov5647_modes.getD i ov5647_mode_fallback) =
      spec_cost w h code i := by
  have hb := ov5647_mode_dims_le i hi
  unfold spec_cost
  exact mode_diff_eq_cost_m _ w h code hb.1 hb.2 hw hh

/-- For bounded requests every specified cost is below the loop's initial
best (`~0U`), so the first iteration already records entry 0. -/
theorem spec_cost_lt_top (w h code i : Nat) (hw : w ≤ BOUND) (hh : h ≤ BOUND) (hi : i < 6) :
    spec_cost w h code i < 4294967295 := by
  have hb := ov5647_mode_dims_le i hi
  have h1 := ndist_le_bound _ w hb.1 hw
  have h2 := ndist_le_bound _ h hb.2 hh
  have hB : BOUND = 2147478647 := rfl
  simp only [spec_cost]
  split_ifs <;> omega

/-- For bounded requests the selected entry has minimal specified cost,
ties resolved to the lowest index. -/
theorem ov5647_find_best_min (w h code : Nat) (hw : w ≤ BOUND) (hh : h ≤ BOUND)
    (j : Nat) (hj : j < 6) :
    spec_cost w h code (ov5647_find_best w h code) ≤ spec_cost w h code j ∧
    (spec_cost w h code j = spec_cost w h code (ov5647_find_best w h code) →
      ov5647_find_best w h code ≤ j) := by
  have hlt := ov5647_find_best_lt w h code
  have h0 : (fun i => ov5647_mode_diff w h code (ov5647_modes.getD i ov5647_mode_fallback)) 0 <
      4294967295 := by
    show ov5647_mode_diff w h code (ov5647_modes.getD 0 ov5647_mode_fallback) < 4294967295
    rw [ov5647_mode_diff_eq_spec_cost w h code 0 hw hh (by norm_num)]
    exact spec_cost_lt_top w h code 0 hw hh (by norm_num)
  have hb := ov5647_best6
    (fun i => ov5647_mode_diff w h code (ov5647_modes.getD i ov5647_mode_fallback)) h0 j hj
  unfold ov5647_find_best at hlt ⊢
  simp only [] at hb
  rw [ov5647_mode_diff_eq_spec_cost w h code _ hw hh hlt,
      ov5647_mode_diff_eq_spec_cost w h code j hw hh hj] at hb
  exact hb

/-- Expansion of the specified cost at index 0. -/
theorem spec_cost_0 (w h code : Nat) : spec_cost w h code 0 =
    ndist 640 w + ndist 480 h + (if MEDIA_BUS_FMT_SBGGR8_1X8 ≠ code then 10000 else 0) := rfl

/-- Expansion of the specified cost at index 1. -/
theorem spec_cost_1 (w h code : Nat) : spec_cost w h code 1 =
    ndist 640 w + ndist 480 h + (if MEDIA_BUS_FMT_SBGGR8_1X8 ≠ code then 10000 else 0) := rfl

/-- Expansion of the specified cost at index 2. -/
theorem spec_cost_2 (w h code : Nat) : spec_cost w h code 2 =
    ndist 1296 w + ndist 972 h + (if MEDIA_BUS_FMT_SBGGR8_1X8 ≠ code then 10000 else 0) := rfl

/-- Expansion of the specified cost at index 3. -/
theorem spec_cost_3 (w h code : Nat) : spec_cost w h code 3 =
    ndist 1280 w + ndist 960 h + (if MEDIA_BUS_FMT_SBGGR8_1X8 ≠ code then 10000 else 0) := rfl

/-- Expansion of the specified cost at index 4. -/
theorem spec_cost_4 (w h code : Nat) : spec_cost w h code 4 =
    ndist 1920 w + ndist 1080 h + (if MEDIA_BUS_FMT_SBGGR10_1X10 ≠ code then 10000 else 0) := rfl

/-- Expansion of the specified cost at index 5. -/
theorem spec_cost_5 (w h code : Nat) : spec_cost w h code 5 =
    ndist 2592 w + ndist 1944 h + (if MEDIA_BUS_FMT_SBGGR8_1X8 ≠ code then 10000 else 0) := rfl

/-- C1 (amended): for every requested (width, height, format) triple whose
width and height are at most BOUND = 2^31 - 5001 (so the 32-bit cost
arithmetic of the loop is exact), ov5647_set_fmt writes back the entry of
the mode table minimizing cost = |width_i - w| + |height_i - h| +
(LARGE_PENALTY if the format differs), and when two entries have equal
minimal cost the one with the lowest table index is chosen.  (Without the
bound, the (int) casts wrap and a non-minimizing entry can be selected:
see the counterexample.) -/
theorem ov5647_set_fmt_minimizes (w h code fl cs : Nat) (hw : w ≤ BOUND) (hh : h ≤ BOUND)
    (which_try : Bool) (st : DevState) :
    (ov5647_set_fmt which_try (MbusFmt.mk w h code fl cs) st).2.1 =
      mode_fmt (ov5647_find_best w h code) ∧
    ∀ j, j < 6 →
      spec_cost w h code (ov5647_find_best w h code) ≤ spec_cost w h code j ∧
      (spec_cost w h code j = spec_cost w h code (ov5647_find_best w h code) →
        ov5647_find_best w h code ≤ j) := by
  constructor
  · cases which_try <;> rfl
  · exact fun j hj => ov5647_find_best_min w h code hw hh j hj

/-- Witness for C1 at the spec's example request (641, 479, SBGGR8). -/
theorem ov5647_set_fmt_minimizes_witness :
    (641 ≤ BOUND ∧ 479 ≤ BOUND) ∧
    ((ov5647_set_fmt false (MbusFmt.mk 641 479 MEDIA_BUS_FMT_SBGGR8_1X8 1 8) initSt).2.1 =
      mode_fmt (ov5647_find_best 641 479 MEDIA_BUS_FMT_SBGGR8_1X8) ∧
    ∀ j, j < 6 →
      spec_cost 641 479 MEDIA_BUS_FMT_SBGGR8_1X8
          (ov5647_find_best 641 479 MEDIA_BUS_FMT_SBGGR8_1X8) ≤
        spec_cost 641 479 MEDIA_BUS_FMT_SBGGR8_1X8 j ∧
      (spec_cost 641 479 MEDIA_BUS_FMT_SBGGR8_1X8 j =
          spec_cost 641 479 MEDIA_BUS_FMT_SBGGR8_1X8
            (ov5647_find_best 641 479 MEDIA_BUS_FMT_SBGGR8_1X8) →
        ov5647_find_best 641 479 MEDIA_BUS_FMT_SBGGR8_1X8 ≤ j)) :=
  ⟨⟨by decide, by decide⟩,
   ov5647_set_fmt_minimizes 641 479 MEDIA_BUS_FMT_SBGGR8_1X8 1 8
     (by decide) (by decide) false initSt⟩

/-- C1 counterexample: at requested (3000000000, 480, SBGGR8) the driver
selects entry 0 (640x480), but entry 5 (2592x1944) has strictly smaller
cost: the claim fails for unbounded requests because the (int) cast of the
requested width wraps. -/
theorem ov5647_set_fmt_minimizes_counterexample :
    ov5647_find_best 3000000000 480 MEDIA_BUS_FMT_SBGGR8_1X8 = 0 ∧
    (ov5647_set_fmt false (MbusFmt.mk 3000000000 480 MEDIA_BUS_FMT_SBGGR8_1X8 1 8)
      initSt).2.1.width = 640 ∧
    spec_cost 3000000000 480 MEDIA_BUS_FMT_SBGGR8_1X8 5 <
      spec_cost 3000000000 480 MEDIA_BUS_FMT_SBGGR8_1X8 0 := by
  decide

/-- C2 (amended): LARGE_PENALTY = 10000 exceeds the greatest
dimension-distance between any two entries of the mode table (which is
3416, between 640x480 and 2592x1944), and consequently for every request
whose width and height are at most BOUND = 2^31 - 5001 and whose format is
offered by some table entry, the selected entry's format matches the
request even when its size does not.  (10000 does not exceed the
dimension-distance from a table entry to an arbitrary request, and for
unbounded requests the conclusion itself fails: see the counterexample.) -/
theorem ov5647_penalty_dominates (w h code : Nat) (hw : w ≤ BOUND) (hh : h ≤ BOUND)
    (hmatch : ∃ i, i < 6 ∧ (ov5647_modes.getD i ov5647_mode_fallback).mbus_code = code) :
    (∀ i, i < 6 → ∀ j, j < 6 →
      ndist (ov5647_modes.getD i ov5647_mode_fallback).width
          (ov5647_modes.getD j ov5647_mode_fallback).width +
        ndist (ov5647_modes.getD i ov5647_mode_fallback).height
          (ov5647_modes.getD j ov5647_mode_fallback).height < 10000) ∧
    (ov5647_modes.getD (ov5647_find_best w h code) ov5647_mode_fallback).mbus_code = code := by
  constructor
  · decide
  · obtain ⟨i0, hi0, hc⟩ := hmatch
    have hmin := fun j hj => (ov5647_find_best_min w h code hw hh j hj).1
    have hlt := ov5647_find_best_lt w h code
    set b := ov5647_find_best w h code with hbdef
    clear_value b
    have hcode : code = MEDIA_BUS_FMT_SBGGR8_1X8 ∨ code = MEDIA_BUS_FMT_SBGGR10_1X10 := by
      interval_cases i0
      · exact Or.inl hc.symm
      · exact Or.inl hc.symm
      · exact Or.inl hc.symm
      · exact Or.inl hc.symm
      · exact Or.inr hc.symm
      · exact Or.inl hc.symm
    rcases hcode with hcode | hcode <;> subst hcode
    · interval_cases b
      · decide
      · decide
      · decide
      · decide
      · exfalso
        have h10 := hmin 0 (by norm_num)
        rw [spec_cost_0, spec_cost_4] at h10
        norm_num [MEDIA_BUS_FMT_SBGGR8_1X8, MEDIA_BUS_FMT_SBGGR10_1X10] at h10
        have e1 : ndist 640 w ≤ 1280 + ndist 1920 w := by unfold ndist; split_ifs <;> omega
        have e2 : ndist 480 h ≤ 600 + ndist 1080 h := by unfold ndist; split_ifs <;> omega
        omega
      · decide
    · interval_cases b
      · exfalso
        have h14 := hmin 4 (by norm_num)
        rw [spec_cost_0, spec_cost_4] at h14
        norm_num [MEDIA_BUS_FMT_SBGGR8_1X8, MEDIA_BUS_FMT_SBGGR10_1X10] at h14
        have e1 : ndist 1920 w ≤ 1280 + ndist 640 w := by unfold ndist; split_ifs <;> omega
        have e2 : ndist 1080 h ≤ 600 + ndist 480 h := by unfold ndist; split_ifs <;> omega
        omega
      · exfalso
        have h14 := hmin 4 (by norm_num)
        rw [spec_cost_1, spec_cost_4] at h14
        norm_num [MEDIA_BUS_FMT_SBGGR8_1X8, MEDIA_BUS_FMT_SBGGR10_1X10] at h14
        have e1 : ndist 1920 w ≤ 1280 + ndist 640 w := by unfold ndist; split_ifs <;> omega
        have e2 : ndist 1080 h ≤ 600 + ndist 480 h := by unfold ndist; split_ifs <;> omega
        omega
      · exfalso
        have h14 := hmin 4 (by norm_num)
        rw [spec_cost_2, spec_cost_4] at h14
        norm_num [MEDIA_BUS_FMT_SBGGR8_1X8, MEDIA_BUS_FMT_SBGGR10_1X10] at h14
        have e1 : ndist 1920 w ≤ 624 + ndist 1296 w := by unfold ndist; split_ifs <;> omega
        have e2 : ndist 1080 h ≤ 108 + ndist 972 h := by unfold ndist; split_ifs <;> omega
        omega
      · exfalso
        have h14 := hmin 4 (by norm_num)
        rw [spec_cost_3, spec_cost_4] at h14
        norm_num [MEDIA_BUS_FMT_SBGGR8_1X8, MEDIA_BUS_FMT_SBGGR10_1X10] at h14
        have e1 : ndist 1920 w ≤ 640 + ndist 1280 w := by unfold ndist; split_ifs <;> omega
        have e2 : ndist 1080 h ≤ 120 + ndist 960 h := by unfold ndist; split_ifs <;> omega
        omega
      · decide
      · exfalso
        have h14 := hmin 4 (by norm_num)
        rw [spec_cost_5, spec_cost_4] at h14
        norm_num [MEDIA_BUS_FMT_SBGGR8_1X8, MEDIA_BUS_FMT_SBGGR10_1X10] at h14
        have e1 : ndist 1920 w ≤ 672 + ndist 2592 w := by unfold ndist; split_ifs <;> omega
        have e2 : ndist 1080 h ≤ 864 + ndist 1944 h := by unfold ndist; split_ifs <;> omega
        omega

/-- Witness for C2 at the concrete request (1000, 1000, SBGGR10), where
only entry 4 offers the requested format. -/
theorem ov5647_penalty_dominates_witness :
    (1000 ≤ BOUND ∧ 1000 ≤ BOUND ∧
      (∃ i, i < 6 ∧ (ov5647_modes.getD i ov5647_mode_fallback).mbus_code =
        MEDIA_BUS_FMT_SBGGR10_1X10)) ∧
    ((∀ i, i < 6 → ∀ j, j < 6 →
      ndist (ov5647_modes.getD i ov5647_mode_fallback).width
          (ov5647_modes.getD j ov5647_mode_fallback).width +
        ndist (ov5647_modes.getD i ov5647_mode_fallback).height
          (ov5647_modes.getD j ov5647_mode_fallback).height < 10000) ∧
    (ov5647_modes.getD (ov5647_find_best 1000 1000 MEDIA_BUS_FMT_SBGGR10_1X10)
        ov5647_mode_fallback).mbus_code = MEDIA_BUS_FMT_SBGGR10_1X10) :=
  ⟨⟨by decide, by decide, ⟨4, by decide, by decide⟩⟩,
   ov5647_penalty_dominates 1000 1000 MEDIA_BUS_FMT_SBGGR10_1X10 (by decide) (by decide)
     ⟨4, by decide, by decide⟩⟩

/-- C2 counterexample: at the request (20000, 20000) the dimension-distance
of entry 0 is 38880, so LARGE_PENALTY = 10000 does not exceed the maximum
possible dimension-distance; moreover at the request
(2147483647, 2147483647, SBGGR10) the driver selects entry 5, whose format
does not match, although entry 4's does - the claimed format preference
fails for unbounded requests. -/
theorem ov5647_penalty_dominates_counterexample :
    ¬ (ndist (ov5647_modes.getD 0 ov5647_mode_fallback).width 20000 +
        ndist (ov5647_modes.getD 0 ov5647_mode_fallback).height 20000 < 10000) ∧
    ov5647_find_best 2147483647 2147483647 MEDIA_BUS_FMT_SBGGR10_1X10 = 5 ∧
    (ov5647_modes.getD 5 ov5647_mode_fallback).mbus_code ≠ MEDIA_BUS_FMT_SBGGR10_1X10 ∧
    (ov5647_modes.getD 4 ov5647_mode_fallback).mbus_code = MEDIA_BUS_FMT_SBGGR10_1X10 := by
  decide

/-- C10: ov5647_set_fmt is total over all inputs: it always returns 0
(success), the (width, height, code) triple written back to the caller is
exactly the triple of one of the six mode-table entries, and a TRY call
leaves the persistent driver state (current_mode, width, height - in fact
the whole device state) unchanged. -/
theorem ov5647_set_fmt_total (which_try : Bool) (f : MbusFmt) (st : DevState) :
    (ov5647_set_fmt which_try f st).1 = 0 ∧
    (∃ i, i < 6 ∧
      (ov5647_set_fmt which_try f st).2.1.width =
        (ov5647_modes.getD i ov5647_mode_fallback).width ∧
      (ov5647_set_fmt which_try f st).2.1.height =
        (ov5647_modes.getD i ov5647_mode_fallback).height ∧
      (ov5647_set_fmt which_try f st).2.1.code =
        (ov5647_modes.getD i ov5647_mode_fallback).mbus_code) ∧
    (which_try = true → (ov5647_set_fmt which_try f st).2.2 = st) := by
  refine ⟨?_, ⟨ov5647_find_best f.width f.height f.code,
    ov5647_find_best_lt _ _ _, ?_, ?_, ?_⟩, ?_⟩ <;>
    cases which_try <;> simp [ov5647_set_fmt, mode_fmt]

/-- C9: detect first issues the software-reset write, then reads the two
chip-ID registers; if the high byte differs from 0x56 (or the high byte
matches and the low byte differs from 0x47) it returns -ENODEV (-19),
performs no further transport traffic (in particular it does not clear the
reset flag), and the probe attach does not proceed to registration; only
when both bytes match does it clear the reset flag and return success. -/
theorem ov5647_detect_identity (st : DevState) (hnf : NoFault st)
    (hclk : st.clkFail = false)
    (hb1 : st.regs OV5647_REG_CHIPID_H < 256) (hb2 : st.regs OV5647_REG_CHIPID_L < 256) :
    (st.regs OV5647_REG_CHIPID_H ≠ 0x56 →
      (ov5647_detect st).1 = -19 ∧
      (ov5647_detect st).2.trace = st.trace ++
        [Ev.wr OV5647_SW_RESET 0x01, Ev.rd OV5647_REG_CHIPID_H] ∧
      (ov5647_probe st).1 = -19 ∧
      (Ev.register ∈ (ov5647_probe st).2.trace → Ev.register ∈ st.trace)) ∧
    (st.regs OV5647_REG_CHIPID_H = 0x56 → st.regs OV5647_REG_CHIPID_L ≠ 0x47 →
      (ov5647_detect st).1 = -19 ∧
      (ov5647_detect st).2.trace = st.trace ++
        [Ev.wr OV5647_SW_RESET 0x01, Ev.rd OV5647_REG_CHIPID_H,
         Ev.rd OV5647_REG_CHIPID_L] ∧
      (ov5647_probe st).1 = -19 ∧
      (Ev.register ∈ (ov5647_probe st).2.trace → Ev.register ∈ st.trace)) ∧
    (st.regs OV5647_REG_CHIPID_H = 0x56 → st.regs OV5647_REG_CHIPID_L = 0x47 →
      0 ≤ (ov5647_detect st).1 ∧
      (ov5647_detect st).2.trace = st.trace ++
        [Ev.wr OV5647_SW_RESET 0x01, Ev.rd OV5647_REG_CHIPID_H,
         Ev.rd OV5647_REG_CHIPID_L, Ev.wr OV5647_SW_RESET 0x00] ∧
      (ov5647_probe st).1 = 0 ∧ Ev.register ∈ (ov5647_probe st).2.trace) := by
  have hf : ∀ k, st.tfail k = false := hnf
  have e1 : st.regs OV5647_REG_CHIPID_H % 256 = st.regs OV5647_REG_CHIPID_H :=
    Nat.mod_eq_of_lt hb1
  have e2 : st.regs OV5647_REG_CHIPID_L % 256 = st.regs OV5647_REG_CHIPID_L :=
    Nat.mod_eq_of_lt hb2
  have ne1 : OV5647_REG_CHIPID_H ≠ OV5647_SW_RESET := by decide
  have ne2 : OV5647_REG_CHIPID_L ≠ OV5647_SW_RESET := by decide
  refine ⟨fun hmh => ?_, fun heh hml => ?_, fun heh hel => ?_⟩
  · by_cases hg : st.hasResetGpio = true <;>
      simp [ov5647_detect, ov5647_probe, __ov5647_power_on, __ov5647_power_off,
        ov5647_write, ov5647_read, clk_prepare_enable, clk_disable_unprepare,
        gpiod_set_value_cansleep, usleep_range, hf, hclk, hg, e1, e2, ne1, ne2, hmh]
  · by_cases hg : st.hasResetGpio = true <;>
      simp [ov5647_detect, ov5647_probe, __ov5647_power_on, __ov5647_power_off,
        ov5647_write, ov5647_read, clk_prepare_enable, clk_disable_unprepare,
        gpiod_set_value_cansleep, usleep_range, hf, hclk, hg, e1, e2, ne1, ne2, heh, hml]
  · by_cases hg : st.hasResetGpio = true <;>
      simp [ov5647_detect, ov5647_probe, __ov5647_power_on, __ov5647_power_off,
        ov5647_write, ov5647_read, clk_prepare_enable, clk_disable_unprepare,
        gpiod_set_value_cansleep, usleep_range, hf, hclk, hg, e1, e2, ne1, ne2, heh, hel]

/-- Preservation is reflexive. -/
theorem pres_refl (st : DevState) : Pres st st := ⟨Eq.refl _, Eq.refl _, Eq.refl _⟩

/-- Preservation composes. -/
theorem Pres.trans {a b c : DevState} (h1 : Pres a b) (h2 : Pres b c) : Pres a c :=
  ⟨h2.1.trans h1.1, h2.2.1.trans h1.2.1, h2.2.2.trans h1.2.2⟩

/-- Preserved operations keep the no-fault property. -/
theorem NoFault.of_pres {a b : DevState} (hp : Pres a b) (hn : NoFault a) : NoFault b :=
  fun k => by rw [hp.2.2]; exact hn k

/-- A register write preserves counter, clock and fault oracle. -/
theorem pres_write (reg val : Nat) (st : DevState) : Pres st (ov5647_write reg val st).2 := by
  unfold ov5647_write Pres
  split_ifs <;> exact ⟨rfl, rfl, rfl⟩

/-- A register read preserves counter, clock and fault oracle. -/
theorem pres_read (reg : Nat) (st : DevState) : Pres st (ov5647_read reg st).2 := by
  unfold ov5647_read Pres
  split_ifs <;> exact ⟨rfl, rfl, rfl⟩

/-- A whole register-sequence write preserves counter, clock and oracle. -/
theorem pres_write_array (l : List RegVal) : ∀ st, Pres st (ov5647_write_array l st).2 := by
  induction l with
  | nil => intro st; exact pres_refl st
  | cons r rest ih =>
    intro st
    unfold ov5647_write_array
    cases hw : ov5647_write r.addr r.data st with
    | mk ret st2 =>
      have hp : Pres st st2 := by have := pres_write r.addr r.data st; rw [hw] at this; exact this
      by_cases hr : ret < 0
      · simp only [hr, if_pos]; exact hp
      · simp only [hr, if_neg, ite_false]; exact hp.trans (ih st2)

/-- Under a fault-free oracle a register write returns 3 (bytes sent). -/
theorem write_noFault (reg val : Nat) (st : DevState) (hnf : NoFault st) :
    (ov5647_write reg val st).1 = 3 := by
  unfold ov5647_write
  rw [if_neg (by rw [hnf st.tick]; exact Bool.false_ne_true)]

/-- Under a fault-free oracle a register read returns 1. -/
theorem read_noFault (reg : Nat) (st : DevState) (hnf : NoFault st) :
    (ov5647_read reg st).1.1 = 1 := by
  unfold ov5647_read
  rw [if_neg (by rw [hnf st.tick]; exact Bool.false_ne_true)]

/-- Under a fault-free oracle a whole sequence write returns 0. -/
theorem write_array_noFault (l : List RegVal) :
    ∀ st, NoFault st → (ov5647_write_array l st).1 = 0 := by
  induction l with
  | nil => intro st _; rfl
  | cons r rest ih =>
    intro st hnf
    unfold ov5647_write_array
    cases hw : ov5647_write r.addr r.data st with
    | mk ret st2 =>
      have hr : ret = 3 := by have := write_noFault r.addr r.data st hnf; rw [hw] at this; exact this
      have hp : Pres st st2 := by have := pres_write r.addr r.data st; rw [hw] at this; exact this
      subst hr
      simp only [show ¬ ((3 : Int) < 0) by norm_num, if_neg, ite_false]
      exact ih st2 (NoFault.of_pres hp hnf)

/-- Virtual-channel assignment preserves counter, clock and oracle. -/
theorem pres_svc (ch : Nat) (st : DevState) : Pres st (ov5647_set_virtual_channel ch st).2 := by
  unfold ov5647_set_virtual_channel
  cases hr : ov5647_read OV5647_REG_MIPI_CTRL14 st with
  | mk rv st1 =>
    have hp1 : Pres st st1 := by
      have := pres_read OV5647_REG_MIPI_CTRL14 st; rw [hr] at this; exact this
    cases rv with
    | mk ret cid =>
      by_cases hc : ret < 0
      · simp only [hc, if_pos]; exact hp1
      · simp only [hc, ite_false]; exact hp1.trans (pres_write _ _ st1)

/-- Virtual-channel assignment succeeds (returns 3) without faults. -/
theorem svc_noFault (ch : Nat) (st : DevState) (hnf : NoFault st) :
    (ov5647_set_virtual_channel ch st).1 = 3 := by
  unfold ov5647_set_virtual_channel
  cases hr : ov5647_read OV5647_REG_MIPI_CTRL14 st with
  | mk rv st1 =>
    have hp1 : Pres st st1 := by
      have := pres_read OV5647_REG_MIPI_CTRL14 st; rw [hr] at this; exact this
    cases rv with
    | mk ret cid =>
      have e1 : ret = 1 := by
        have := read_noFault OV5647_REG_MIPI_CTRL14 st hnf; rw [hr] at this; exact this
      subst e1
      simp only [show ¬ ((1 : Int) < 0) by norm_num, ite_false]
      exact write_noFault _ _ st1 (NoFault.of_pres hp1 hnf)

/-- Stream-off preserves counter, clock and oracle. -/
theorem pres_stream_off (st : DevState) : Pres st (ov5647_stream_off st).2 := by
  unfold ov5647_stream_off
  cases h1 : ov5647_write OV5647_REG_MIPI_CTRL00
      (MIPI_CTRL00_CLOCK_LANE_GATE ||| MIPI_CTRL00_BUS_IDLE |||
       MIPI_CTRL00_CLOCK_LANE_DISABLE) st with
  | mk r1 st1 =>
    have hp1 : Pres st st1 := by
      have := pres_write OV5647_REG_MIPI_CTRL00
        (MIPI_CTRL00_CLOCK_LANE_GATE ||| MIPI_CTRL00_BUS_IDLE |||
         MIPI_CTRL00_CLOCK_LANE_DISABLE) st
      rw [h1] at this; exact this
    by_cases hc1 : r1 < 0
    · simp only [hc1, if_pos]; exact hp1
    · simp only [hc1, ite_false]
      cases h2 : ov5647_write OV5647_REG_FRAME_OFF_NUMBER 0x0f st1 with
      | mk r2 st2 =>
        have hp2 : Pres st1 st2 := by
          have := pres_write OV5647_REG_FRAME_OFF_NUMBER 0x0f st1
          rw [h2] at this; exact this
        by_cases hc2 : r2 < 0
        · simp only [hc2, if_pos]; exact hp1.trans hp2
        · simp only [hc2, ite_false]
          exact (hp1.trans hp2).trans (pres_write _ _ st2)

/-- Stream-off succeeds (returns 3) without faults. -/
theorem stream_off_noFault (st : DevState) (hnf : NoFault st) :
    (ov5647_stream_off st).1 = 3 := by
  unfold ov5647_stream_off
  cases h1 : ov5647_write OV5647_REG_MIPI_CTRL00
      (MIPI_CTRL00_CLOCK_LANE_GATE ||| MIPI_CTRL00_BUS_IDLE |||
       MIPI_CTRL00_CLOCK_LANE_DISABLE) st with
  | mk r1 st1 =>
    have hp1 : Pres st st1 := by
      have := pres_write OV5647_REG_MIPI_CTRL00
        (MIPI_CTRL00_CLOCK_LANE_GATE ||| MIPI_CTRL00_BUS_IDLE |||
         MIPI_CTRL00_CLOCK_LANE_DISABLE) st
      rw [h1] at this; exact this
    have hn1 : NoFault st1 := NoFault.of_pres hp1 hnf
    have e1 : r1 = 3 := by
      have := write_noFault OV5647_REG_MIPI_CTRL00
        (MIPI_CTRL00_CLOCK_LANE_GATE ||| MIPI_CTRL00_BUS_IDLE |||
         MIPI_CTRL00_CLOCK_LANE_DISABLE) st hnf
      rw [h1] at this; exact this
    subst e1
    simp only [show ¬ ((3 : Int) < 0) by norm_num, ite_false]
    cases h2 : ov5647_write OV5647_REG_FRAME_OFF_NUMBER 0x0f st1 with
    | mk r2 st2 =>
      have hp2 : Pres st1 st2 := by
        have := pres_write OV5647_REG_FRAME_OFF_NUMBER 0x0f st1
        rw [h2] at this; exact this
      have e2 : r2 = 3 := by
        have := write_noFault OV5647_REG_FRAME_OFF_NUMBER 0x0f st1 hn1
        rw [h2] at this; exact this
      subst e2
      simp only [show ¬ ((3 : Int) < 0) by norm_num, ite_false]
      exact write_noFault _ _ st2 (NoFault.of_pres hp2 hn1)

/-- The standby read-modify-write preserves counter, clock and oracle. -/
theorem pres_ssb (standby : Bool) (st : DevState) : Pres st (set_sw_standby standby st).2 := by
  unfold set_sw_standby
  cases hr : ov5647_read OV5647_SW_STANDBY st with
  | mk rv st1 =>
    have hp1 : Pres st st1 := by
      have := pres_read OV5647_SW_STANDBY st; rw [hr] at this; exact this
    cases rv with
    | mk ret rdval =>
      by_cases hc : ret < 0
      · simp only [hc, if_pos]; exact hp1
      · simp only [hc, ite_false]
        split_ifs <;> exact hp1.trans (pres_write _ _ st1)

/-- Sensor initialization preserves counter, clock and oracle. -/
theorem pres_sensor_init (st : DevState) : Pres st (__sensor_init st).2 := by
  unfold __sensor_init
  cases hr1 : ov5647_read OV5647_SW_STANDBY st with
  | mk rv1 st1 =>
    have hp1 : Pres st st1 := by
      have := pres_read OV5647_SW_STANDBY st; rw [hr1] at this; exact this
    cases rv1 with
    | mk r1 x1 =>
      by_cases hc1 : r1 < 0
      · simp only [hc1, if_pos]; exact hp1
      · simp only [hc1, ite_false]
        cases hw2 : ov5647_write_array
            (ov5647_modes.getD st.current_mode ov5647_mode_fallback).reg_list st1 with
        | mk r2 st2 =>
          have hp2 : Pres st1 st2 := by
            have := pres_write_array
              (ov5647_modes.getD st.current_mode ov5647_mode_fallback).reg_list st1
            rw [hw2] at this; exact this
          by_cases hc2 : r2 < 0
          · simp only [hc2, if_pos]; exact hp1.trans hp2
          · simp only [hc2, ite_false]
            cases hr3 : ov5647_read OV5647_REG_MIPI_CTRL00 st2 with
            | mk rv3 st3 =>
              have hp3 : Pres st2 st3 := by
                have := pres_read OV5647_REG_MIPI_CTRL00 st2; rw [hr3] at this; exact this
              cases hv4 : ov5647_set_virtual_channel 0 st3 with
              | mk r4 st4 =>
                have hp4 : Pres st3 st4 := by
                  have := pres_svc 0 st3; rw [hv4] at this; exact this
                have hp04 : Pres st st4 := ((hp1.trans hp2).trans hp3).trans hp4
                by_cases hc4 : r4 < 0
                · simp only [hc4, if_pos]; exact hp04
                · simp only [hc4, ite_false]
                  cases hr5 : ov5647_read OV5647_SW_STANDBY st4 with
                  | mk rv5 st5 =>
                    have hp5 : Pres st4 st5 := by
                      have := pres_read OV5647_SW_STANDBY st4; rw [hr5] at this; exact this
                    have hp05 : Pres st st5 := hp04.trans hp5
                    cases rv5 with
                    | mk r5 resetval =>
                      by_cases hc5 : r5 < 0
                      · simp only [hc5, if_pos]; exact hp05
                      · simp only [hc5, ite_false]
                        by_cases hb : resetval &&& 0x01 = 0
                        · simp only [hb, if_pos]
                          cases hw6 : ov5647_write OV5647_SW_STANDBY 0x01 st5 with
                          | mk r6 st6 =>
                            have hp6 : Pres st5 st6 := by
                              have := pres_write OV5647_SW_STANDBY 0x01 st5
                              rw [hw6] at this; exact this
                            by_cases hc6 : r6 < 0
                            · simp only [hc6, if_pos]; exact hp05.trans hp6
                            · simp only [hc6, ite_false]
                              exact (hp05.trans hp6).trans (pres_stream_off st6)
                        · simp only [hb, ite_false]
                          exact hp05.trans (pres_stream_off st5)

/-- Sensor initialization succeeds (returns the final stream-off write's 3)
without faults. -/
theorem sensor_init_noFault (st : DevState) (hnf : NoFault st) : (__sensor_init st).1 = 3 := by
  unfold __sensor_init
  cases hr1 : ov5647_read OV5647_SW_STANDBY st with
  | mk rv1 st1 =>
    have hp1 : Pres st st1 := by
      have := pres_read OV5647_SW_STANDBY st; rw [hr1] at this; exact this
    have hn1 : NoFault st1 := NoFault.of_pres hp1 hnf
    cases rv1 with
    | mk r1 x1 =>
      have e1 : r1 = 1 := by
        have := read_noFault OV5647_SW_STANDBY st hnf; rw [hr1] at this; exact this
      subst e1
      simp only [show ¬ ((1 : Int) < 0) by norm_num, ite_false]
      cases hw2 : ov5647_write_array
          (ov5647_modes.getD st.current_mode ov5647_mode_fallback).reg_list st1 with
      | mk r2 st2 =>
        have hp2 : Pres st1 st2 := by
          have := pres_write_array
            (ov5647_modes.getD st.current_mode ov5647_mode_fallback).reg_list st1
          rw [hw2] at this; exact this
        have hn2 : NoFault st2 := NoFault.of_pres hp2 hn1
        have e2 : r2 = 0 := by
          have := write_array_noFault
            (ov5647_modes.getD st.current_mode ov5647_mode_fallback).reg_list st1 hn1
          rw [hw2] at this; exact this
        subst e2
        simp only [show ¬ ((0 : Int) < 0) by norm_num, ite_false]
        cases hr3 : ov5647_read OV5647_REG_MIPI_CTRL00 st2 with
        | mk rv3 st3 =>
          have hp3 : Pres st2 st3 := by
            have := pres_read OV5647_REG_MIPI_CTRL00 st2; rw [hr3] at this; exact this
          have hn3 : NoFault st3 := NoFault.of_pres hp3 hn2
          cases hv4 : ov5647_set_virtual_channel 0 st3 with
          | mk r4 st4 =>
            have hp4 : Pres st3 st4 := by
              have := pres_svc 0 st3; rw [hv4] at this; exact this
            have hn4 : NoFault st4 := NoFault.of_pres hp4 hn3
            have e4 : r4 = 3 := by
              have := svc_noFault 0 st3 hn3; rw [hv4] at this; exact this
            subst e4
            simp only [show ¬ ((3 : Int) < 0) by norm_num, ite_false]
            cases hr5 : ov5647_read OV5647_SW_STANDBY st4 with
            | mk rv5 st5 =>
              have hp5 : Pres st4 st5 := by
                have := pres_read OV5647_SW_STANDBY st4; rw [hr5] at this; exact this
              have hn5 : NoFault st5 := NoFault.of_pres hp5 hn4
              cases rv5 with
              | mk r5 resetval =>
                have e5 : r5 = 1 := by
                  have := read_noFault OV5647_SW_STANDBY st4 hn4; rw [hr5] at this; exact this
                subst e5
                simp only [show ¬ ((1 : Int) < 0) by norm_num, ite_false]
                by_cases hb : resetval &&& 0x01 = 0
                · simp only [hb, if_pos]
                  cases hw6 : ov5647_write OV5647_SW_STANDBY 0x01 st5 with
                  | mk r6 st6 =>
                    have hp6 : Pres st5 st6 := by
                      have := pres_write OV5647_SW_STANDBY 0x01 st5
                      rw [hw6] at this; exact this
                    have hn6 : NoFault st6 := NoFault.of_pres hp6 hn5
                    have e6 : r6 = 3 := by
                      have := write_noFault OV5647_SW_STANDBY 0x01 st5 hn5
                      rw [hw6] at this; exact this
                    subst e6
                    simp only [show ¬ ((3 : Int) < 0) by norm_num, ite_false]
                    exact stream_off_noFault st6 hn6
                · simp only [hb, ite_false]
                  exact stream_off_noFault st5 hn5

/-- An acquire at a positive reference count is a pure counter increment. -/
theorem acq_intermediate (s : DevState) (h : 1 ≤ s.power_count) :
    ov5647_sensor_power true s = (0, { s with power_count := s.power_count + 1 }) := by
  have h1 : ¬ s.power_count = 0 := by omega
  have h2 : ¬ (s.power_count + 1 < 0) := by omega
  simp [ov5647_sensor_power, power_count_update, h1, h2]

/-- A release at a reference count of at least 2 is a pure counter
decrement. -/
theorem rel_intermediate (s : DevState) (h : 2 ≤ s.power_count) :
    ov5647_sensor_power false s = (0, { s with power_count := s.power_count - 1 }) := by
  have h1 : ¬ s.power_count = 1 := by omega
  have h2 : ¬ (s.power_count + -1 < 0) := by omega
  have h3 : s.power_count + -1 = s.power_count - 1 := by omega
  have h4 : ¬ (s.power_count - 1 < 0) := by omega
  simp [ov5647_sensor_power, power_count_update, h1, h2, h3, h4]

/-- Disabling the clock does not touch the power counter. -/
theorem clk_disable_pc (s : DevState) : (clk_disable_unprepare s).power_count = s.power_count :=
  rfl

/-- C6: if the first acquire (power-on from reference count 0) fails at any
step - clock enable, the output-enable register writes, or sensor
initialization / mode apply - the returned value is the failing step's
error (propagated to the caller), the clock is left disabled, and
reference_count is left at 0: the increment is skipped on the goto-out
path, so the state machine returns to OFF. -/
theorem ov5647_acquire_failure (st : DevState) (hpc : st.power_count = 0)
    (hclk : st.clkOn = false) :
    (ov5647_sensor_power true st).1 < 0 →
    (ov5647_sensor_power true st).2.power_count = 0 ∧
    (ov5647_sensor_power true st).2.clkOn = false := by
  unfold ov5647_sensor_power power_count_update
  rw [if_pos (⟨rfl, hpc⟩ : true = true ∧ st.power_count = 0)]
  unfold clk_prepare_enable
  by_cases hcf : st.clkFail = true
  · rw [if_pos hcf]
    dsimp only
    rw [if_pos (by norm_num : ((-5 : Int)) < 0)]
    intro _
    exact ⟨hpc, hclk⟩
  · rw [if_neg hcf]
    dsimp only
    rw [if_neg (by norm_num : ¬ ((0 : Int) < 0))]
    by_cases hg : st.hasResetGpio = true
    · rw [if_pos hg]
      split_ifs with hw hs ht
      · intro _
        refine ⟨?_, rfl⟩
        rw [clk_disable_pc, (pres_write_array sensor_oe_enable_regs _).1]
        exact hpc
      · intro _
        refine ⟨?_, rfl⟩
        rw [clk_disable_pc, (pres_sensor_init _).1,
          (pres_write_array sensor_oe_enable_regs _).1]
        exact hpc
      · intro hret
        exact absurd hret hs
      · exact absurd rfl ht
    · rw [if_neg hg]
      split_ifs with hw hs ht
      · intro _
        refine ⟨?_, rfl⟩
        rw [clk_disable_pc, (pres_write_array sensor_oe_enable_regs _).1]
        exact hpc
      · intro _
        refine ⟨?_, rfl⟩
        rw [clk_disable_pc, (pres_sensor_init _).1,
          (pres_write_array sensor_oe_enable_regs _).1]
        exact hpc
      · intro hret
        exact absurd hret hs
      · exact absurd rfl ht

/-- Witness for C6 with the clock-enable step failing. -/
theorem ov5647_acquire_failure_witness :
    (({ initSt with clkFail := true } : DevState).power_count = 0 ∧
     ({ initSt with clkFail := true } : DevState).clkOn = false ∧
     (ov5647_sensor_power true { initSt with clkFail := true }).1 < 0) ∧
    ((ov5647_sensor_power true { initSt with clkFail := true }).2.power_count = 0 ∧
     (ov5647_sensor_power true { initSt with clkFail := true }).2.clkOn = false) :=
  ⟨⟨rfl, rfl, by decide⟩,
   ov5647_acquire_failure { initSt with clkFail := true } rfl rfl (by decide)⟩

/-- A fault-free first acquire completes the power-on path and leaves the
reference count at 1, with the fault oracle untouched. -/
theorem acquire_from_zero (st : DevState) (hnf : NoFault st) (hclk : st.clkFail = false)
    (hpc : st.power_count = 0) :
    (ov5647_sensor_power true st).2.power_count = 1 ∧
    NoFault (ov5647_sensor_power true st).2 := by
  unfold ov5647_sensor_power power_count_update
  rw [if_pos (⟨rfl, hpc⟩ : true = true ∧ st.power_count = 0)]
  unfold clk_prepare_enable
  rw [if_neg (show ¬ st.clkFail = true by simp [hclk])]
  dsimp only
  rw [if_neg (by norm_num : ¬ ((0 : Int) < 0))]
  by_cases hg : st.hasResetGpio = true
  · rw [if_pos hg]
    generalize husl : usleep_range (gpiod_set_value_cansleep 0
        { st with clkOn := true, trace := st.trace ++ [Ev.clkEnable] }) = A
    have hnfA : NoFault A := by rw [← husl]; exact hnf
    have hpcA : A.power_count = 0 := by rw [← husl]; exact hpc
    rw [if_neg (show ¬ ((ov5647_write_array sensor_oe_enable_regs A).1 < 0) by
      rw [write_array_noFault sensor_oe_enable_regs A hnfA]; norm_num)]
    have hnfB : NoFault (ov5647_write_array sensor_oe_enable_regs A).2 :=
      NoFault.of_pres (pres_write_array sensor_oe_enable_regs A) hnfA
    rw [if_neg (show ¬ ((__sensor_init (ov5647_write_array sensor_oe_enable_regs A).2).1 < 0) by
      rw [sensor_init_noFault _ hnfB]; norm_num)]
    rw [if_pos (rfl : true = true)]
    refine ⟨?_, ?_⟩
    · dsimp only
      rw [(pres_sensor_init _).1, (pres_write_array sensor_oe_enable_regs _).1, hpcA]
      norm_num
    · intro k
      dsimp only
      rw [congrFun (pres_sensor_init _).2.2 k,
        congrFun (pres_write_array sensor_oe_enable_regs _).2.2 k]
      exact hnfA k
  · rw [if_neg hg]
    generalize husl :
      ({ st with clkOn := true, trace := st.trace ++ [Ev.clkEnable] } : DevState) = A
    have hnfA : NoFault A := by rw [← husl]; exact hnf
    have hpcA : A.power_count = 0 := by rw [← husl]; exact hpc
    rw [if_neg (show ¬ ((ov5647_write_array sensor_oe_enable_regs A).1 < 0) by
      rw [write_array_noFault sensor_oe_enable_regs A hnfA]; norm_num)]
    have hnfB : NoFault (ov5647_write_array sensor_oe_enable_regs A).2 :=
      NoFault.of_pres (pres_write_array sensor_oe_enable_regs A) hnfA
    rw [if_neg (show ¬ ((__sensor_init (ov5647_write_array sensor_oe_enable_regs A).2).1 < 0) by
      rw [sensor_init_noFault _ hnfB]; norm_num)]
    rw [if_pos (rfl : true = true)]
    refine ⟨?_, ?_⟩
    · dsimp only
      rw [(pres_sensor_init _).1, (pres_write_array sensor_oe_enable_regs _).1, hpcA]
      norm_num
    · intro k
      dsimp only
      rw [congrFun (pres_sensor_init _).2.2 k,
        congrFun (pres_write_array sensor_oe_enable_regs _).2.2 k]
      exact hnfA k

/-- Iterated acquires at a positive count are pure counter arithmetic. -/
theorem acq_iter (k : Nat) : ∀ s : DevState, 1 ≤ s.power_count →
    power_seq (List.replicate k true) s =
      { s with power_count := s.power_count + (k : Int) } := by
  induction k with
  | zero => intro s hs; simp [power_seq]
  | succ k ih =>
    intro s hs
    rw [List.replicate_succ]
    rw [show power_seq (true :: List.replicate k true) s =
        power_seq (List.replicate k true) ((ov5647_sensor_power true s).2) from rfl]
    rw [acq_intermediate s hs]
    dsimp only
    rw [ih { s with power_count := s.power_count + 1 } (by dsimp only; omega)]
    dsimp only
    congr 1
    push_cast
    ring

/-- Iterated releases above the final one are pure counter arithmetic. -/
theorem rel_iter (k : Nat) : ∀ s : DevState, (k : Int) + 1 ≤ s.power_count →
    power_seq (List.replicate k false) s =
      { s with power_count := s.power_count - (k : Int) } := by
  induction k with
  | zero => intro s hs; simp [power_seq]
  | succ k ih =>
    intro s hs
    rw [List.replicate_succ]
    rw [show power_seq (false :: List.replicate k false) s =
        power_seq (List.replicate k false) ((ov5647_sensor_power false s).2) from rfl]
    rw [rel_intermediate s (by push_cast at hs; omega)]
    dsimp only
    rw [ih { s with power_count := s.power_count - 1 } (by dsimp only; push_cast at hs ⊢; omega)]
    dsimp only
    congr 1
    push_cast
    ring

/-- Folding a power-call sequence splits over list append. -/
theorem power_seq_append (l1 l2 : List Bool) (st : DevState) :
    power_seq (l1 ++ l2) st = power_seq l2 (power_seq l1 st) := by
  simp [power_seq, List.foldl_append]

/-- The power counter after a gpio update is unchanged. -/
theorem gpio_pc (v : Nat) (s : DevState) :
    (gpiod_set_value_cansleep v s).power_count = s.power_count := rfl

/-- The final release (from reference count 1) runs the power-off path and
leaves the counter at 0, whatever the transport returned. -/
theorem release_from_one (s : DevState) (hpc : s.power_count = 1) :
    (ov5647_sensor_power false s).2.power_count = 0 := by
  unfold ov5647_sensor_power power_count_update
  rw [if_neg (by simp : ¬ (false = true ∧ s.power_count = 0))]
  rw [if_pos (⟨rfl, hpc⟩ : false = false ∧ s.power_count = 1)]
  unfold clk_disable_unprepare
  rw [if_neg Bool.false_ne_true]
  cases hw : ov5647_write_array sensor_oe_disable_regs s with
  | mk r1 st1 =>
    have hp1 : Pres s st1 := by
      have := pres_write_array sensor_oe_disable_regs s; rw [hw] at this; exact this
    cases hs2 : set_sw_standby true st1 with
    | mk sret st2 =>
      have hp2 : Pres st1 st2 := by
        have := pres_ssb true st1; rw [hs2] at this; exact this
      dsimp only
      split_ifs with hg
      · rw [gpio_pc]
        dsimp only
        rw [hs2]
        dsimp only
        rw [hp2.1, hp1.1, hpc]
        norm_num
      · rw [hs2]
        dsimp only
        rw [hp2.1, hp1.1, hpc]
        norm_num

/-- C5: for every N >= 1 and fault-free transport, N acquires followed by N
releases from the OFF state produce exactly the same final device state -
including the whole side-effect trace - as one acquire followed by one
release: the full power-on side-effect sequence happens exactly once (on
the first acquire) and the full power-off sequence exactly once (on the
last release), the counter returns to 0, and every acquire at a positive
count and every release at a count of at least 2 is a pure counter update
with no side effects. -/
theorem ov5647_refcount_balanced (n : Nat) (hn : 1 ≤ n) (st : DevState)
    (hpc : st.power_count = 0) (hnf : NoFault st) (hclk : st.clkFail = false) :
    power_seq (List.replicate n true ++ List.replicate n false) st =
      power_seq [true, false] st ∧
    (power_seq (List.replicate n true ++ List.replicate n false) st).power_count = 0 ∧
    (∀ s : DevState, 1 ≤ s.power_count →
      ov5647_sensor_power true s = (0, { s with power_count := s.power_count + 1 })) ∧
    (∀ s : DevState, 2 ≤ s.power_count →
      ov5647_sensor_power false s = (0, { s with power_count := s.power_count - 1 })) := by
  have h1 := acquire_from_zero st hnf hclk hpc
  have h11 := h1.1
  have hmain : power_seq (List.replicate n true ++ List.replicate n false) st =
      power_seq [true, false] st := by
    obtain ⟨m, rfl⟩ : ∃ m, n = m + 1 := ⟨n - 1, by omega⟩
    rw [show List.replicate (m + 1) true = true :: List.replicate m true from rfl]
    rw [power_seq_append]
    rw [show power_seq (true :: List.replicate m true) st =
        power_seq (List.replicate m true) ((ov5647_sensor_power true st).2) from rfl]
    rw [acq_iter m _ (by omega)]
    rw [List.replicate_succ']
    rw [power_seq_append]
    rw [rel_iter m _ (by dsimp only; omega)]
    dsimp only
    have harith : (ov5647_sensor_power true st).2.power_count + (m : Int) - (m : Int) =
        (ov5647_sensor_power true st).2.power_count := by omega
    rw [harith]
    rfl
  refine ⟨hmain, ?_, acq_intermediate, rel_intermediate⟩
  rw [hmain]
  rw [show power_seq [true, false] st =
      (ov5647_sensor_power false ((ov5647_sensor_power true st).2)).2 from rfl]
  exact release_from_one _ h11

/-- Witness for C5 at N = 3 on the concrete initial state. -/
theorem ov5647_refcount_balanced_witness :
    (1 ≤ 3 ∧ initSt.power_count = 0 ∧ NoFault initSt ∧ initSt.clkFail = false) ∧
    (power_seq (List.replicate 3 true ++ List.replicate 3 false) initSt =
       power_seq [true, false] initSt ∧
     (power_seq (List.replicate 3 true ++ List.replicate 3 false) initSt).power_count = 0 ∧
     (∀ s : DevState, 1 ≤ s.power_count →
       ov5647_sensor_power true s = (0, { s with power_count := s.power_count + 1 })) ∧
     (∀ s : DevState, 2 ≤ s.power_count →
       ov5647_sensor_power false s = (0, { s with power_count := s.power_count - 1 }))) :=
  ⟨⟨by norm_num, rfl, fun _ => rfl, rfl⟩,
   ov5647_refcount_balanced 3 (by norm_num) initSt rfl (fun _ => rfl) rfl⟩

/-- Witness for C9: a chip whose identification registers read 0x55 (high
byte mismatching the expected 0x56). -/
theorem ov5647_detect_identity_witness :
    (({ initSt with regs := fun _ => 0x55 } : DevState).regs OV5647_REG_CHIPID_H ≠ 0x56) ∧
    ((ov5647_detect { initSt with regs := fun _ => 0x55 }).1 = -19 ∧
     (ov5647_detect { initSt with regs := fun _ => 0x55 }).2.trace =
       ({ initSt with regs := fun _ => 0x55 } : DevState).trace ++
       [Ev.wr OV5647_SW_RESET 0x01, Ev.rd OV5647_REG_CHIPID_H] ∧
     (ov5647_probe { initSt with regs := fun _ => 0x55 }).1 = -19 ∧
     (Ev.register ∈ (ov5647_probe { initSt with regs := fun _ => 0x55 }).2.trace →
       Ev.register ∈ ({ initSt with regs := fun _ => 0x55 } : DevState).trace)) :=
  ⟨by decide,
   (ov5647_detect_identity { initSt with regs := fun _ => 0x55 }
     (fun _ => rfl) rfl (by decide) (by decide)).1 (by decide)⟩
